import Mathlib

/-!
The local authenticating bridge of ara-cloud-run.

A shallow embedding of `cmd/root.go`.

* Functions of the repository (`reverseProxyDirector`, the three hooks installed on the
  reverse proxy, the gatekeeper handler, `run`, the `Run` closure of `NewCmd`) are
  translated line by line.
* Go library calls the repository makes (`net/http`, `net/http/httputil`, `net/textproto`,
  `os/exec`, `fmt`) are embedded by what the library does, each marked as such.
* Everything the outside world decides (the token the credential source returns, what
  the remote origin answers, what the operating system returns) is a parameter, so a
  theorem quantifies over all of it.
* Side effects that the properties talk about (a token being requested, a request being
  handed to the transport, the self-test, the child being started) are recorded in an
  explicit event list.
-/

namespace AraCloudRun

/-! ## Go values -/

/-- Go `error` values, as far as the program can tell them apart: an ordinary error
carrying its text, an error built by `fmt.Errorf` with the `%w` verb (it keeps the wrapped
error), and the `*exec.ExitError` that `(*exec.Cmd).Run` returns for a child that ran and
did not exit with status 0. -/
inductive GoError where
  | errorString (text : String)
  | wrapError (msg : String) (err : GoError)
  | exitError (code : Int) (text : String)

/-- The method `Error()` of a Go error: its text. -/
def GoError.Error : GoError → String
  | .errorString text => text
  | .wrapError msg _ => msg
  | .exitError _ text => text

/-- The call `fmt.Errorf(format + "%w", err)`: the text is the format text followed by the
text of `err`, and the result wraps `err`. -/
def errorfW (format : String) (err : GoError) : GoError :=
  .wrapError (format ++ err.Error) err

/-- The type assertion `err.(*exec.ExitError)`: it looks at the dynamic type of `err`
itself and does not unwrap. -/
def GoError.asExitError : GoError → Option Int
  | .exitError code _ => some code
  | _ => none

/-! ### Header names -/

/-- Go `validHeaderFieldByte` of `net/textproto`: the characters of an HTTP token, that is
letters, digits and the fifteen marks `!#$%&'*+-.^_|~` and the backquote. -/
def validHeaderFieldByte (c : Char) : Bool :=
  c.isAlphanum ||
    [33, 35, 36, 37, 38, 39, 42, 43, 45, 46, 94, 95, 96, 124, 126].contains c.toNat

/-- The letter case of a canonical header name: a letter that starts the name or follows
a dash is upper case, every other letter is lower case. `upper` tells whether the next
character starts a word. -/
def canonicalCase : Bool → List Char → List Char
  | _, [] => []
  | upper, c :: cs =>
    let c' := if upper && c.isLower then c.toUpper
      else if !upper && c.isUpper then c.toLower else c
    c' :: canonicalCase (c' == '-') cs

/-- Go `textproto.CanonicalMIMEHeaderKey`: a name made of token characters only is put in
canonical letter case, any other text is returned unchanged. -/
def CanonicalMIMEHeaderKey (s : String) : String :=
  if s.data.all validHeaderFieldByte then String.mk (canonicalCase true s.data) else s

/-- Go `http.Header`, keyed by canonical header name: the values stored under a key, in
order. A key that is absent has no values. -/
structure Header where
  values : String → List String

/-- `Header.Set(key, value)`: replaces every value stored under `key` by the single
`value`. The program and the library call it with names that are canonical already. -/
def Header.Set (h : Header) (key value : String) : Header :=
  { values := fun k => if k = key then [value] else h.values k }

/-- `Header.Get(key)`: the first value stored under `key`, or the empty string. -/
def Header.Get (h : Header) (key : String) : String :=
  (h.values key).headD ""

/-- `Header.Values(key)`: all the values stored under `key`. -/
def Header.Values (h : Header) (key : String) : List String :=
  h.values key

/-- `Header.Del(key)`: removes the values stored under the canonical form of `key`. -/
def Header.Del (h : Header) (key : String) : Header :=
  { values := fun k => if k = CanonicalMIMEHeaderKey key then [] else h.values k }

/-- The empty header map. -/
def Header.empty : Header :=
  { values := fun _ => [] }

/-- Go `url.URL`, the fields the program and the proxy library read or write. -/
structure URL where
  Scheme : String
  Host : String
  Path : String
  RawPath : String
  RawQuery : String

/-- Go `http.Request`. `ctxError` is `req.Context().Value(contextKeyError)`: the value the
request's context holds under the package-private key `contextKeyError`. -/
structure Request where
  Method : String
  URL : URL
  Host : String
  Header : Header
  RemoteAddr : String
  ctxError : Option GoError

/-- The statement `*req = *req.WithContext(context.WithValue(req.Context(), contextKeyError, err))`:
the same request with `err` stored in its context under `contextKeyError`. -/
def Request.withContextError (req : Request) (err : GoError) : Request :=
  { req with ctxError := some err }

/-- Go `oauth2.Token`. -/
structure Token where
  AccessToken : String

/-- Go `oauth2.TokenSource`: `Token` is what the call `tokenSource.Token()` returns. -/
structure TokenSource where
  Token : Except GoError Token

/-- What a peer puts on the wire in answer to a request: a status code and a body. Used
both for what the remote origin answers and for what the bridge writes to its caller
through the `http.ResponseWriter`. -/
structure Reply where
  Code : Nat
  Body : String

/-- Go `http.Response` as the proxy hooks see it: status, body, and the request that was
sent to obtain it. -/
structure Response where
  StatusCode : Nat
  Body : String
  Request : Request

/-- The side effects of handling a request that the properties speak about. -/
inductive Event where
  | token
  | roundTrip (outreq : Request)

/-- A result together with the events that producing it caused, in order. -/
structure Effect (α : Type) where
  val : α
  events : List Event

/-! ## Go library functions -/

/-- Go `http.Error(w, error, code)`: writes the status `code` and then the text `error`
followed by a line feed (`fmt.Fprintln`). -/
def httpError (error : String) (code : Nat) : Reply :=
  { Code := code, Body := error ++ "\n" }

/-- Go `http.StatusUnauthorized`. -/
def StatusUnauthorized : Nat := 401

/-- Go `http.StatusInternalServerError`. -/
def StatusInternalServerError : Nat := 500

/-- Go `http.StatusOK`. -/
def StatusOK : Nat := 200

/-- Go `http.StatusSwitchingProtocols`. -/
def StatusSwitchingProtocols : Nat := 101

/-- Go `http.StatusBadGateway`. -/
def StatusBadGateway : Nat := 502

/-- Go `(*http.Request).BasicAuth`: reads the header `Authorization`; absent or empty
means no credentials, otherwise the library parser `parseBasicAuth` (base64 of
`user:password` after the scheme `Basic`) decides. The parser is a parameter. -/
def Request.BasicAuth (parseBasicAuth : String → String × String × Bool) (r : Request) :
    String × String × Bool :=
  let auth := r.Header.Get "Authorization"
  if auth = "" then ("", "", false) else parseBasicAuth auth

/-- The pieces of a text between its commas, as `strings.Split(s, ",")` returns them. -/
def splitComma : List Char → List (List Char)
  | [] => [[]]
  | c :: cs =>
    if c = ',' then [] :: splitComma cs
    else
      match splitComma cs with
      | [] => [[c]]
      | piece :: pieces => (c :: piece) :: pieces

/-- A text without its leading and trailing characters that satisfy `space`. -/
def trimBoth (space : Char → Bool) (s : List Char) : List Char :=
  ((s.dropWhile space).reverse.dropWhile space).reverse

/-- Go `isASCIISpace` of `net/textproto`: blank, tab, line feed, carriage return. -/
def isASCIISpace (c : Char) : Bool :=
  c == ' ' || c == '\t' || c == '\n' || c == '\r'

/-- Optional white space of an HTTP header value: blank and tab. -/
def isOWS (c : Char) : Bool :=
  c == ' ' || c == '\t'

/-- Go `tokenEqual` of `httpguts`: the two texts are equal up to the case of ASCII
letters; a text with a character outside ASCII equals no token. -/
def tokenEqual (t1 t2 : List Char) : Bool :=
  t1.all (fun c => c.toNat < 128) && t1.map Char.toLower == t2.map Char.toLower

/-- Go `httpguts.HeaderValuesContainsToken`: one of the values has `token` among its
comma-separated elements, white space around an element and letter case set aside. -/
def HeaderValuesContainsToken (values : List String) (token : String) : Bool :=
  values.any fun v => (splitComma v.data).any fun piece => tokenEqual (trimBoth isOWS piece) token.data

/-- Go `upgradeType` of `net/http/httputil`: the value of `Upgrade` when `Connection` has
the element `Upgrade`, the empty text otherwise. -/
def upgradeType (h : Header) : String :=
  if HeaderValuesContainsToken (h.Values "Connection") "Upgrade" then h.Get "Upgrade" else ""

/-- Go `ascii.IsPrint`: every character is printable ASCII, from blank to tilde. -/
def IsPrint (s : String) : Bool :=
  s.data.all fun c => 32 ≤ c.toNat && c.toNat ≤ 126

/-- Go `hopHeaders` of `net/http/httputil`. -/
def hopHeaders : List String :=
  ["Connection", "Proxy-Connection", "Keep-Alive", "Proxy-Authenticate",
    "Proxy-Authorization", "Te", "Trailer", "Transfer-Encoding", "Upgrade"]

/-- The non-empty elements of the comma-separated values, each without the ASCII space
around it (`textproto.TrimString`). -/
def listedNames : List String → List String
  | [] => []
  | f :: fs =>
    (((splitComma f.data).map fun piece => String.mk (trimBoth isASCIISpace piece)).filter
      fun sf => sf ≠ "") ++ listedNames fs

/-- Go `removeHopByHopHeaders` of `net/http/httputil`: every header that the header
`Connection` lists is deleted, then the headers of `hopHeaders`. -/
def removeHopByHopHeaders (h : Header) : Header :=
  hopHeaders.foldl Header.Del ((listedNames (h.Values "Connection")).foldl Header.Del h)

/-- Go `httputil.ReverseProxy`: the three hooks the program sets and the transport. The
director may request a token, so it reports events. -/
structure ReverseProxy where
  Director : Request → Effect Request
  Transport : Request → Except GoError Reply
  ModifyResponse : Option (Response → Option GoError)
  ErrorHandler : Option (Request → GoError → Reply)

/-- Library functions that the reverse proxy calls and that are taken as parameters. -/
structure ProxyLib where
  /-- The host that `net.SplitHostPort` finds in an address, or nothing when it fails -/
  SplitHostPort : String → Option String
  /-- The text that the verb `%q` of `fmt` prints for a string -/
  Quote : String → String
  /-- The errors that `handleUpgradeResponse` reports through the error handler for a
  request and an answer `101 Switching Protocols` (the protocols differ, the connection
  cannot be taken over), in order; none when it switches protocols -/
  upgradeErrors : Request → Reply → List GoError

/-- The library's default error handler of a reverse proxy: an empty 502 answer. -/
def defaultErrorHandler (_ : Request) (_ : GoError) : Reply :=
  { Code := StatusBadGateway, Body := "" }

/-- The method `getErrorHandler` of the reverse proxy. -/
def ReverseProxy.getErrorHandler (p : ReverseProxy) : Request → GoError → Reply :=
  match p.ErrorHandler with
  | some h => h
  | none => defaultErrorHandler

/-- The method `modifyResponse` of the reverse proxy: the error of the hook
`ModifyResponse`, if the hook is set and returns one. -/
def ReverseProxy.modifyResponse (p : ReverseProxy) (res : Response) : Option GoError :=
  match p.ModifyResponse with
  | none => none
  | some modify => modify res

/-- The step of `ServeHTTP` that tells the origin about trailer support: when the inbound
request has `Te: trailers`, the outbound header `Te` is set to `trailers`. -/
def putTrailers (req : Request) (h : Header) : Header :=
  if HeaderValuesContainsToken (req.Header.Values "Te") "trailers" then h.Set "Te" "trailers"
  else h

/-- The step of `ServeHTTP` that puts the upgrade headers back after the hop-by-hop
headers are removed. -/
def putUpgrade (reqUpType : String) (h : Header) : Header :=
  if reqUpType ≠ "" then (h.Set "Connection" "Upgrade").Set "Upgrade" reqUpType else h

/-- The step of `ServeHTTP` that appends the client address to `X-Forwarded-For`: nothing
when the address of the client has no host part, otherwise the header is set to the prior
values and the client host, joined by a comma and a blank. (A header that is present with
no value, which tells the library to leave it alone, does not occur in a request that the
server parsed.) -/
def putForwardedFor (lib : ProxyLib) (req : Request) (h : Header) : Header :=
  match lib.SplitHostPort req.RemoteAddr with
  | some clientIP =>
    let prior := h.Values "X-Forwarded-For"
    h.Set "X-Forwarded-For"
      (if prior ≠ [] then ", ".intercalate prior ++ ", " ++ clientIP else clientIP)
  | none => h

/-- The step of `ServeHTTP` that keeps the transport from adding its own `User-Agent`: an
absent header is set to the empty text. -/
def putUserAgent (h : Header) : Header :=
  if h.Values "User-Agent" = [] then h.Set "User-Agent" "" else h

/-- What `(*httputil.ReverseProxy).ServeHTTP` does to the request `outreq` that the
director returned, before it hands it to the transport; `req` is the inbound request.
A request that asks for an upgrade to a protocol whose name is not printable ASCII is
refused with an error. Otherwise the hop-by-hop headers are removed (this is after the
director, so it also removes what the director set under a name that `Connection`
lists), `Te: trailers` and the upgrade headers are put back when the client sent them,
the client address is appended to `X-Forwarded-For`, and an absent `User-Agent` is set to
the empty text. -/
def prepareOutreq (lib : ProxyLib) (req outreq : Request) : Except GoError Request :=
  let reqUpType := upgradeType outreq.Header
  if IsPrint reqUpType = false then
    .error (.errorString ("client tried to switch to invalid protocol " ++ lib.Quote reqUpType))
  else
    let h := removeHopByHopHeaders outreq.Header
    let h := putTrailers req h
    let h := putUpgrade reqUpType h
    let h := putForwardedFor lib req h
    let h := putUserAgent h
    .ok { outreq with Header := h }

/-- The request that the reverse proxy hands to the transport for the inbound request
`req`, or the error with which it refuses the request before any round trip. -/
def ReverseProxy.outreq (lib : ProxyLib) (p : ReverseProxy) (req : Request) :
    Except GoError Request :=
  prepareOutreq lib req (p.Director req).val

/-- Calls of the error handler on one `http.ResponseWriter`, one after the other: the
first status written stays, the bodies follow each other. -/
def writeErrors (handle : GoError → Reply) (first : GoError) (more : List GoError) : Reply :=
  more.foldl (fun w err => { Code := w.Code, Body := w.Body ++ (handle err).Body }) (handle first)

/-- Go `handleUpgradeResponse` of `net/http/httputil`, as far as the caller's answer goes:
every failure is reported through the error handler, and when there is none the caller
gets the status 101 and then the bytes of the origin on the switched connection. -/
def ReverseProxy.handleUpgradeResponse (lib : ProxyLib) (p : ReverseProxy) (outreq : Request)
    (up : Reply) : Reply :=
  match lib.upgradeErrors outreq up with
  | [] => { Code := StatusSwitchingProtocols, Body := up.Body }
  | first :: more => writeErrors (p.getErrorHandler outreq) first more

/-- Go `(*httputil.ReverseProxy).ServeHTTP`: the director rewrites a clone of the inbound
request; the library prepares the result (`prepareOutreq`) and either refuses it through
the error handler, without a round trip, or hands it to the transport; a transport error
goes to the error handler; otherwise `ModifyResponse` sees the response (whose `Request`
is the outbound request) and an error it returns goes to the error handler in place of the
response; otherwise an answer `101 Switching Protocols` is left to
`handleUpgradeResponse`, and for any other answer status and body are copied to the
caller. -/
def ReverseProxy.ServeHTTP (lib : ProxyLib) (p : ReverseProxy) (req : Request) :
    Effect Reply :=
  let d := p.Director req
  match prepareOutreq lib req d.val with
  | .error err => { val := p.getErrorHandler req err, events := d.events }
  | .ok outreq =>
    let events := d.events ++ [Event.roundTrip outreq]
    match p.Transport outreq with
    | .error err => { val := p.getErrorHandler outreq err, events := events }
    | .ok up =>
      let res : Response := { StatusCode := up.Code, Body := up.Body, Request := outreq }
      match p.modifyResponse res with
      | some err => { val := p.getErrorHandler outreq err, events := events }
      | none =>
        if res.StatusCode = StatusSwitchingProtocols then
          { val := p.handleUpgradeResponse lib outreq up, events := events }
        else
          { val := { Code := res.StatusCode, Body := res.Body }, events := events }

/-- Go `rewriteRequestURL`, the director that `httputil.NewSingleHostReverseProxy` installs:
scheme and host of the URL become the target's, the paths are joined by the library
function `joinURLPath` (a parameter), the queries are concatenated. -/
def rewriteRequestURL (joinURLPath : URL → URL → String × String) (target : URL)
    (req : Request) : Request :=
  let targetQuery := target.RawQuery
  let joined := joinURLPath target req.URL
  let query :=
    if targetQuery = "" ∨ req.URL.RawQuery = "" then targetQuery ++ req.URL.RawQuery
    else targetQuery ++ "&" ++ req.URL.RawQuery
  { req with URL := { Scheme := target.Scheme, Host := target.Host, Path := joined.1,
                      RawPath := joined.2, RawQuery := query } }

/-- Go `httputil.NewSingleHostReverseProxy(target)`: only the director is set; the
transport is the default transport, that is the network (a parameter). -/
def NewSingleHostReverseProxy (joinURLPath : URL → URL → String × String)
    (network : Request → Except GoError Reply) (target : URL) : ReverseProxy :=
  { Director := fun req => { val := rewriteRequestURL joinURLPath target req, events := [] }
    Transport := network
    ModifyResponse := none
    ErrorHandler := none }

/-! ## The repository: `cmd/root.go` -/

/-- The function `reverseProxyDirector` of root.go, lines 27 to 41. -/
def reverseProxyDirector (originalDirector : Request → Effect Request)
    (tokenSource : TokenSource) (proxyTargetUrl : URL) (req : Request) : Effect Request :=
  let o := originalDirector req
  let req := o.val
  let req := { req with Header := req.Header.Set "Host" proxyTargetUrl.Host }
  let req := { req with Host := proxyTargetUrl.Host }
  match tokenSource.Token with
  | .error err =>
    let req := req.withContextError (errorfW "get token: " err)
    let token : Token := { AccessToken := "" }
    { val := { req with Header := req.Header.Set "Authorization" ("Bearer " ++ token.AccessToken) }
      events := o.events ++ [Event.token] }
  | .ok token =>
    let req :=
      if token.AccessToken = "" then req.withContextError (.errorString "empty token") else req
    { val := { req with Header := req.Header.Set "Authorization" ("Bearer " ++ token.AccessToken) }
      events := o.events ++ [Event.token] }

/-- The hook `reverseProxy.ModifyResponse` of root.go, lines 133 to 139. -/
def modifyResponse (response : Response) : Option GoError :=
  match response.Request.ctxError with
  | some err => some (.errorString ("proxy error: " ++ err.Error))
  | none => none

/-- The hook `reverseProxy.ErrorHandler` of root.go, lines 140 to 142. -/
def errorHandler (_ : Request) (err : GoError) : Reply :=
  httpError err.Error StatusInternalServerError

/-- The reverse proxy as `run` builds it, root.go lines 131 to 142. -/
def newReverseProxy (joinURLPath : URL → URL → String × String)
    (network : Request → Except GoError Reply) (tokenSource : TokenSource)
    (targetUrl : URL) : ReverseProxy :=
  let reverseProxy := NewSingleHostReverseProxy joinURLPath network targetUrl
  { reverseProxy with
    Director := reverseProxyDirector reverseProxy.Director tokenSource targetUrl
    ModifyResponse := some modifyResponse
    ErrorHandler := some errorHandler }

/-- The handler `server.Handler` of root.go, lines 145 to 152. -/
def handler (lib : ProxyLib) (parseBasicAuth : String → String × String × Bool)
    (randomPassword : String) (reverseProxy : ReverseProxy) (r : Request) : Effect Reply :=
  match r.BasicAuth parseBasicAuth with
  | (userName, password, ok) =>
    if ok = true ∧ userName = "ara" ∧ password = randomPassword then
      reverseProxy.ServeHTTP lib r
    else
      { val := httpError "Unauthorized" StatusUnauthorized, events := [] }

/-! ## The orchestrator: `run` and the command -/

/-- One lowercase hexadecimal digit, for a value below 16. -/
def hexDigit (n : Nat) : Char :=
  if n < 10 then Char.ofNat (48 + n) else Char.ofNat (87 + n)

/-- The two hexadecimal digits of a byte, high half first. -/
def hexByte (b : Fin 256) : List Char :=
  [hexDigit (b.val / 16), hexDigit (b.val % 16)]

/-- The characters of `fmt.Sprintf("%x", bytes)` for a byte slice. -/
def hexChars : List (Fin 256) → List Char
  | [] => []
  | b :: bs => hexByte b ++ hexChars bs

/-- The call `fmt.Sprintf("%x", bytes)` for a byte slice: two lowercase hexadecimal digits
per byte. -/
def sprintfHex (bytes : List (Fin 256)) : String :=
  String.mk (hexChars bytes)

/-- How a child process that the operating system was asked to start ended: it ran and
exited with a status (eight bits), it ran and was ended by a signal, or the operating
system could not start it. -/
inductive ChildOutcome where
  | exited (code : Fin 256)
  | signaled (text : String)
  | startFailed (text : String)

/-- What `(*exec.Cmd).Run` returns for a child the operating system was asked to start:
nil for exit status 0, an `*exec.ExitError` carrying the status for any other exit (its
`ExitCode()` is -1 when a signal ended the child), and another kind of error when the
child could not be started. -/
def cmdRun : ChildOutcome → Option GoError
  | .exited code =>
    if code.val = 0 then none
    else some (.exitError (Int.ofNat code.val) ("exit status " ++ toString code.val))
  | .signaled text => some (.exitError (-1) text)
  | .startFailed text => some (.errorString text)

/-- The name of an environment entry as `dedupEnv` of `os/exec` finds it: the text before
the first `=`, where an `=` that starts the entry belongs to the name. An entry without
`=` has no name. -/
def envKey (kv : String) : Option String :=
  match kv.data with
  | '=' :: rest =>
    if '=' ∈ rest then some (String.mk ('=' :: rest.takeWhile fun c => c ≠ '=')) else some ""
  | cs => if '=' ∈ cs then some (String.mk (cs.takeWhile fun c => c ≠ '=')) else none

/-- The entry contains a NUL character. -/
def hasNUL (kv : String) : Bool :=
  kv.data.contains (Char.ofNat 0)

/-- The loop of `dedupEnv`, which reads the entries from the last to the first: an entry
with a NUL character is dropped, an entry without a name is kept unless it is empty, and
an entry is dropped when a later entry had its name. `saw` holds the names met so far. -/
def dedupFromEnd (saw : List String) : List String → List String
  | [] => []
  | kv :: rest =>
    if hasNUL kv then dedupFromEnd saw rest
    else
      match envKey kv with
      | none => if kv ≠ "" then kv :: dedupFromEnd saw rest else dedupFromEnd saw rest
      | some k => if k ∈ saw then dedupFromEnd saw rest else kv :: dedupFromEnd (k :: saw) rest

/-- Go `dedupEnv` of `os/exec` (on a system other than Windows and Plan 9), which
`(*exec.Cmd).Start` applies to `cmd.Env`: of the entries with one name the last one stays,
at its place; the second component tells whether an entry had a NUL character, which is
an error. -/
def dedupEnv (env : List String) : List String × Bool :=
  ((dedupFromEnd [] env.reverse).reverse, env.any hasNUL)

/-- Everything `run` obtains from outside the repository: library functions taken as
parameters and the answers of the operating system, the network and the identity
libraries. -/
structure World where
  /-- Parser behind `(*http.Request).BasicAuth` -/
  parseBasicAuth : String → String × String × Bool
  /-- Encoder behind `(*http.Request).SetBasicAuth`: the base64 text for a user and a password -/
  basicAuth : String → String → String
  /-- Path joining of the proxy library -/
  joinURLPath : URL → URL → String × String
  /-- Library functions of the reverse proxy -/
  proxyLib : ProxyLib
  /-- The default transport: what the remote origin answers, or a transport error -/
  network : Request → Except GoError Reply
  /-- Result of `net.Listen("tcp", "127.0.0.1:0")`: the text of the listener address -/
  Listen : Except GoError String
  /-- Result of `rand.Read` on a 16 byte buffer -/
  randRead : Except GoError { b : List (Fin 256) // b.length = 16 }
  /-- Result of `os.Getenv` -/
  Getenv : String → String
  /-- Result of `os.Environ()` -/
  Environ : List String
  /-- Result of `url.Parse` -/
  urlParse : String → Except GoError URL
  /-- Result of `impersonate.IDTokenSource` for an audience and a target principal -/
  IDTokenSource : String → String → Except GoError TokenSource
  /-- Result of `idtoken.NewTokenSource` for an audience -/
  NewTokenSource : String → Except GoError TokenSource
  /-- Result of `http.DefaultClient.Do` -/
  clientDo : Request → Except GoError Reply
  /-- Text of the error that `exec.CommandContext` records for a command name (its path
  lookup failed), which `Start` returns before anything else; nothing when there is none -/
  commandErr : String → Option String
  /-- How the child that the operating system is asked to start with a name, arguments
  and an environment ends -/
  child : String → List String → List String → ChildOutcome

/-- Go `http.NewRequestWithContext(ctx, method, url, nil)`: the URL is parsed, a parse
error is returned as it is, and the new request has an empty header map. -/
def NewRequestWithContext (w : World) (method url : String) : Except GoError Request :=
  match w.urlParse url with
  | .error err => .error err
  | .ok u => .ok { Method := method, URL := u, Host := u.Host, Header := Header.empty,
                   RemoteAddr := "", ctxError := none }

/-- Go `(*http.Request).SetBasicAuth`. -/
def Request.SetBasicAuth (w : World) (r : Request) (username password : String) : Request :=
  { r with Header := r.Header.Set "Authorization" ("Basic " ++ w.basicAuth username password) }

/-- The function `newImpersonateServiceAccountTokenSource` of root.go, lines 43 to 54. -/
def newImpersonateServiceAccountTokenSource (w : World) (audience targetPrincipal : String) :
    Except GoError TokenSource :=
  match w.IDTokenSource audience targetPrincipal with
  | .error err => .error (errorfW "error creating impersonate token source: " err)
  | .ok tokenSource => .ok tokenSource

/-- The steps of `run` that the properties speak about, in the order they happen on the
main flow: the server starts serving with the handler closed over these values, the
self-test call completes with a result, the operating system is asked to start the child
with an environment and the child ends. -/
inductive RunEvent where
  | serve (addr randomPassword : String) (targetUrl : URL) (tokenSource : TokenSource)
  | selfTest (url : String) (req : Request) (result : Except GoError Reply)
  | spawn (name : String) (arg : List String) (env : List String) (outcome : ChildOutcome)

/-- How a call of `run` ends: it returns nil, it returns an error, or it stops in a
runtime panic. -/
inductive RunOutcome where
  | returned
  | failed (err : GoError)
  | panicked

/-- What a call of `run` did and how it ended. -/
structure RunResult where
  trace : List RunEvent
  outcome : RunOutcome

/-- The tail of `run`, root.go lines 174 to 182, with what `(*exec.Cmd).Run` does with
`cmd.Env`. The program sets `cmd.Env` to the inherited environment followed by `env`;
`Start` returns the error recorded for the command if there is one, then de-duplicates
`cmd.Env` (`dedupEnv`), returns an error if an entry had a NUL character, and asks the
operating system to start the child with the de-duplicated environment. The expression
`args[0]` panics on an empty argument list; the command is declared with
`cobra.MinimumNArgs(1)`, so `run` is not called with one. -/
def runChild (w : World) (trace : List RunEvent) (env : List String) (args : List String) :
    RunResult :=
  match args with
  | [] => { trace := trace, outcome := .panicked }
  | name :: arg =>
    let cmdEnv := w.Environ ++ env
    match w.commandErr name with
    | some text => { trace := trace, outcome := .failed (.errorString text) }
    | none =>
      let childEnv := dedupEnv cmdEnv
      if childEnv.2 = true then
        { trace := trace
          outcome := .failed (.errorString "exec: environment variable contains NUL") }
      else
        let outcome := w.child name arg childEnv.1
        let trace := trace ++ [RunEvent.spawn name arg childEnv.1 outcome]
        match cmdRun outcome with
        | some err => { trace := trace, outcome := .failed err }
        | none => { trace := trace, outcome := .returned }

/-- The middle of `run`, root.go lines 144 to 172: the server is started, then the
self-test is made and checked. -/
def runSelfTest (w : World) (addr randomPassword : String) (targetUrl : URL)
    (tokenSource : TokenSource) (env : List String) (args : List String) : RunResult :=
  let trace := [RunEvent.serve addr randomPassword targetUrl tokenSource]
  let url := "http://" ++ addr ++ "/api/"
  match NewRequestWithContext w "GET" url with
  | .error err => { trace := trace, outcome := .failed (errorfW "create request: " err) }
  | .ok req =>
    let req := req.SetBasicAuth w "ara" randomPassword
    let result := w.clientDo req
    let trace := trace ++ [RunEvent.selfTest url req result]
    match result with
    | .error err => { trace := trace, outcome := .failed (errorfW "send request to ARA API: " err) }
    | .ok resp =>
      if resp.Code ≠ StatusOK then
        { trace := trace
          outcome := .failed (.errorString
            ("ara API returns unexpceted status code(" ++ toString resp.Code ++ ")")) }
      else
        runChild w trace env args

/-- The choice of the credential source in `run`, root.go lines 114 to 129: the
impersonation variant when a target principal is configured by flag or environment, the
direct variant otherwise. -/
def selectTokenSource (w : World) (targetUrl : URL) (impersonateServiceAccount : String) :
    Except GoError TokenSource :=
  let impersonateServiceAccount :=
    if impersonateServiceAccount = "" then
      w.Getenv "ARA_CLOUD_RUN_IMPERSONATE_SERVICE_ACCOUNT"
    else impersonateServiceAccount
  let audience := targetUrl.Scheme ++ "://" ++ targetUrl.Host ++ "/"
  if impersonateServiceAccount ≠ "" then
    match newImpersonateServiceAccountTokenSource w audience impersonateServiceAccount with
    | .error err => .error err
    | .ok tokenSource => .ok tokenSource
  else
    match w.NewTokenSource audience with
    | .error err => .error (errorfW "get token source from default credentials: " err)
    | .ok tokenSource => .ok tokenSource

/-- The function `run` of root.go, lines 85 to 183. -/
def run (w : World) (cloudRunUrl : String) (impersonateServiceAccount : String)
    (args : List String) : RunResult :=
  let env : List String := []
  match w.Listen with
  | .error err => { trace := [], outcome := .failed (errorfW "listen error: " err) }
  | .ok addr =>
    let env := env ++ ["ARA_API_CLIENT=http"]
    let env := env ++ ["ARA_API_SERVER=http://" ++ addr]
    match w.randRead with
    | .error err =>
      { trace := [], outcome := .failed (errorfW "generate random password error: " err) }
    | .ok randomPasswordBytes =>
      let randomPassword := sprintfHex randomPasswordBytes.val
      let env := env ++ ["ARA_API_USERNAME=ara"]
      let env := env ++ ["ARA_API_PASSWORD=" ++ randomPassword]
      let cloudRunUrl := if cloudRunUrl = "" then w.Getenv "ARA_CLOUD_RUN_URL" else cloudRunUrl
      if cloudRunUrl = "" then
        { trace := [], outcome := .failed (.errorString "cloud run url is not set") }
      else
        match w.urlParse cloudRunUrl with
        | .error err => { trace := [], outcome := .failed (errorfW "parse cloud run url: " err) }
        | .ok targetUrl =>
          match selectTokenSource w targetUrl impersonateServiceAccount with
          | .error err => { trace := [], outcome := .failed err }
          | .ok tokenSource => runSelfTest w addr randomPassword targetUrl tokenSource env args

/-- The handler that a `serve` step installs: the gatekeeper closed over the random
password and the reverse proxy built for the target and the token source. -/
def servedHandler (w : World) (randomPassword : String) (targetUrl : URL)
    (tokenSource : TokenSource) : Request → Effect Reply :=
  handler w.proxyLib w.parseBasicAuth randomPassword
    (newReverseProxy w.joinURLPath w.network tokenSource targetUrl)

/-- What the process itself prints to standard error and the status it exits with. -/
structure Process where
  stderr : List String
  exitCode : Nat

/-- The exit status of a process that calls `os.Exit(code)`: the low eight bits of
`code`. -/
def osExit (code : Int) : Nat :=
  (code % 256).toNat

/-- The closure `Run` of the command built by `NewCmd`, root.go lines 64 to 76, followed by
the return through `main`: an `*exec.ExitError` ends the process by `os.Exit` of its exit
code, any other error is printed and ends the process by `os.Exit(1)`, and a nil error
lets `main` return, which is status 0. A runtime panic ends a Go process with status 2. -/
def Run (w : World) (cloudRunUrl impersonateServiceAccount : String) (args : List String) :
    Process :=
  match (run w cloudRunUrl impersonateServiceAccount args).outcome with
  | .failed err =>
    match err.asExitError with
    | some code => { stderr := [], exitCode := osExit code }
    | none => { stderr := [err.Error ++ "\n"], exitCode := osExit 1 }
  | .returned => { stderr := [], exitCode := 0 }
  | .panicked => { stderr := [], exitCode := 2 }

/-! ## Vocabulary of the properties -/

/-- The test of root.go line 147 on a request: basic-auth credentials are present, the user
name is `ara` and the password is the random password. -/
def accepted (parseBasicAuth : String → String × String × Bool) (randomPassword : String)
    (r : Request) : Prop :=
  (r.BasicAuth parseBasicAuth).2.2 = true ∧ (r.BasicAuth parseBasicAuth).1 = "ara" ∧
    (r.BasicAuth parseBasicAuth).2.1 = randomPassword

/-- The requests handed to the transport, in order. -/
def upstreamCalls : List Event → List Request
  | [] => []
  | Event.roundTrip outreq :: es => outreq :: upstreamCalls es
  | Event.token :: es => upstreamCalls es

/-- The number of tokens requested from the credential source. -/
def tokenRequests : List Event → Nat
  | [] => 0
  | Event.token :: es => tokenRequests es + 1
  | Event.roundTrip _ :: es => tokenRequests es

/-- The text `sub` occurs in the text `s`. -/
def containsText (s sub : String) : Prop :=
  sub.data <:+: s.data

/-- The header names, in canonical form, that the header `Connection` of a request lists:
the names the client declares hop-by-hop. -/
def namedInConnection (h : Header) : List String :=
  (listedNames (h.Values "Connection")).map CanonicalMIMEHeaderKey

/-- The outcome of `run` once the child has ended with `o`. -/
def outcomeOfChild (o : ChildOutcome) : RunOutcome :=
  match cmdRun o with
  | some err => .failed err
  | none => .returned

/-- The value of a hexadecimal digit. -/
def hexValue (c : Char) : Nat :=
  if c.toNat < 58 then c.toNat - 48 else c.toNat - 87

/-- The bytes that a text of hexadecimal digits stands for, two digits per byte. -/
def hexDecode : List Char → List Nat
  | a :: b :: rest => (16 * hexValue a + hexValue b) :: hexDecode rest
  | _ => []

/-- The four entries that `run` adds to the environment, for a listener address and a
shared secret. -/
def fourEntries (addr secret : String) : List String :=
  ["ARA_API_CLIENT=http", "ARA_API_SERVER=http://" ++ addr, "ARA_API_USERNAME=ara",
    "ARA_API_PASSWORD=" ++ secret]

/-- The names of the four entries that `run` adds to the environment. -/
def fourNames : List String :=
  ["ARA_API_CLIENT", "ARA_API_SERVER", "ARA_API_USERNAME", "ARA_API_PASSWORD"]

/-- The remote origin URL that `run` uses: the flag, or the environment when the flag is
empty. -/
def resolvedUrl (w : World) (cloudRunUrl : String) : String :=
  if cloudRunUrl = "" then w.Getenv "ARA_CLOUD_RUN_URL" else cloudRunUrl

/-- Every step of `run` before the child succeeds in the world `w`: the listener is bound
at `addr`, the random source gives `bytes`, the remote origin URL is set and parses, the
credential source is constructed, and the self-test request is built, sent and answered
with status 200. -/
def SelfTestPasses (w : World) (cloudRunUrl impersonateServiceAccount addr : String)
    (bytes : { b : List (Fin 256) // b.length = 16 }) : Prop :=
  w.Listen = .ok addr ∧ w.randRead = .ok bytes ∧ resolvedUrl w cloudRunUrl ≠ "" ∧
  ∃ targetUrl tokenSource req resp,
    w.urlParse (resolvedUrl w cloudRunUrl) = .ok targetUrl ∧
    selectTokenSource w targetUrl impersonateServiceAccount = .ok tokenSource ∧
    NewRequestWithContext w "GET" ("http://" ++ addr ++ "/api/") = .ok req ∧
    w.clientDo (req.SetBasicAuth w "ara" (sprintfHex bytes.val)) = .ok resp ∧
    resp.Code = 200

/-- An inherited environment that `dedupEnv` leaves as it is next to the four entries: no
entry has a NUL character or is empty, no entry is under one of the four names, and no two
entries have the same name. -/
def CleanEnviron (environ : List String) : Prop :=
  (∀ kv ∈ environ, hasNUL kv = false ∧ kv ≠ "" ∧ ∀ k, envKey kv = some k → k ∉ fourNames) ∧
  environ.Pairwise (fun a b => ∀ k, envKey a = some k → envKey b ≠ some k)

/-! ## Concrete inputs -/

/-- The shared secret of the example session: sixteen zero bytes in hexadecimal. -/
def exSecret : String := "00000000000000000000000000000000"

/-- The header value a client sends for user `ara` and password `exSecret`. -/
def exBasicValue : String := "Basic YXJhOjAwMDAwMDAwMDAwMDAwMDAwMDAwMDAwMDAwMDAwMDAw"

/-- The basic-auth parser on the header values of the examples: `exBasicValue` decodes to
`ara` and `exSecret`, the value for `ara:wrong` to that pair, anything else is not
basic auth. -/
def exParse (auth : String) : String × String × Bool :=
  if auth = exBasicValue then ("ara", exSecret, true)
  else if auth = "Basic YXJhOndyb25n" then ("ara", "wrong", true)
  else ("", "", false)

/-- Path joining of the examples: the request path under the target path. -/
def exJoin (a b : URL) : String × String :=
  (a.Path ++ b.Path, "")

/-- The library functions of the reverse proxy on the texts of the examples: the client
address `127.0.0.1:51234` has the host `127.0.0.1`, the texts quoted have nothing to
escape but the tab of `web<tab>socket`, and a protocol switch succeeds. -/
def exLib : ProxyLib :=
  { SplitHostPort := fun a => if a = "127.0.0.1:51234" then some "127.0.0.1" else none
    Quote := fun s => if s = "web\tsocket" then "\"web\\tsocket\"" else "\"" ++ s ++ "\""
    upgradeErrors := fun _ _ => [] }

/-- The remote origin of the examples. -/
def exTarget : URL :=
  { Scheme := "https", Host := "api.example.com", Path := "", RawPath := "", RawQuery := "" }

/-- A request of the child for the path `/api/v1/playbooks`, with the given values of the
headers `Authorization`, `Connection` and `Upgrade`. -/
def exRequestWith (authorization connection upgrade : List String) : Request :=
  { Method := "GET"
    URL := { Scheme := "", Host := "", Path := "/api/v1/playbooks", RawPath := "", RawQuery := "" }
    Host := "127.0.0.1:40000"
    Header :=
      { values := fun k =>
          if k = "Authorization" then authorization
          else if k = "Connection" then connection
          else if k = "Upgrade" then upgrade
          else [] }
    RemoteAddr := "127.0.0.1:51234"
    ctxError := none }

/-- A request of the child for the path `/api/v1/playbooks`, with the given values of the
header `Authorization` and no other header. -/
def exRequest (authorization : List String) : Request :=
  exRequestWith authorization [] []

/-- A credential source that returns the token `T1`. -/
def exTokenT1 : TokenSource :=
  { Token := .ok { AccessToken := "T1" } }

/-- A credential source that fails. -/
def exTokenFails : TokenSource :=
  { Token := .error (.errorString "credentials not found") }

/-- A remote origin that answers every request with 200. -/
def exOriginOK (_ : Request) : Except GoError Reply :=
  .ok { Code := 200, Body := "[]" }

/-- A remote origin that cannot be reached. -/
def exOriginDown (_ : Request) : Except GoError Reply :=
  .error (.errorString "dial tcp: connection refused")

/-- A remote origin that answers the health-check path with 200 and asks every other path
for a login of its own with 401. -/
def exOriginLogin (req : Request) : Except GoError Reply :=
  if req.URL.Path = "/api/" then .ok { Code := 200, Body := "[]" }
  else .ok { Code := 401, Body := "login required" }

/-- The basic-auth encoder on the pair of the example session: the base64 text of
`ara:` followed by `exSecret`. No other pair is encoded in the examples. -/
def exBasicAuth (username password : String) : String :=
  if username = "ara" ∧ password = exSecret then
    "YXJhOjAwMDAwMDAwMDAwMDAwMDAwMDAwMDAwMDAwMDAwMDAw"
  else ""

/-- The URL parser on the two URLs of the example session. -/
def exUrlParse (s : String) : Except GoError URL :=
  if s = "https://api.example.com" then .ok exTarget
  else if s = "http://127.0.0.1:40000/api/" then
    .ok { Scheme := "http", Host := "127.0.0.1:40000", Path := "/api/", RawPath := "",
          RawQuery := "" }
  else .error (.errorString "parse error")

/-- The example session: the listener is at `127.0.0.1:40000`, the random bytes are sixteen
zero bytes, the inherited environment is `environ`, the remote origin is
`https://api.example.com` behind `origin`, the self-test is answered by the bridge itself
(which sees the client at `127.0.0.1:51234`), every command is found, and the child ends
with `child`. -/
def exWorld (origin : Request → Except GoError Reply) (tokenSource : TokenSource)
    (environ : List String) (child : ChildOutcome) : World :=
  { parseBasicAuth := exParse
    basicAuth := exBasicAuth
    joinURLPath := exJoin
    proxyLib := exLib
    network := origin
    Listen := .ok "127.0.0.1:40000"
    randRead := .ok ⟨List.replicate 16 0, rfl⟩
    Getenv := fun _ => ""
    Environ := environ
    urlParse := exUrlParse
    IDTokenSource := fun _ _ => .ok tokenSource
    NewTokenSource := fun _ => .ok tokenSource
    clientDo := fun req =>
      .ok (handler exLib exParse exSecret (newReverseProxy exJoin origin tokenSource exTarget)
        { req with RemoteAddr := "127.0.0.1:51234" }).val
    commandErr := fun _ => none
    child := fun _ _ _ => child }

/-! ## Lemmas on the reverse proxy -/

theorem foldl_del_values (names : List String) (h : Header) (k : String) :
    (names.foldl Header.Del h).values k =
      if k ∈ names.map CanonicalMIMEHeaderKey then [] else h.values k := by
  induction names generalizing h with
  | nil => simp
  | cons n ns ih =>
    rw [List.foldl_cons, ih]
    by_cases h1 : k ∈ ns.map CanonicalMIMEHeaderKey
    · simp [h1]
    · by_cases h2 : k = CanonicalMIMEHeaderKey n
      · simp [h1, h2, Header.Del]
      · simp [h1, h2, Header.Del]

theorem removeHopByHop_authorization (h : Header) :
    (removeHopByHopHeaders h).values "Authorization" =
      if "Authorization" ∈ namedInConnection h then [] else h.values "Authorization" := by
  unfold removeHopByHopHeaders namedInConnection
  rw [foldl_del_values, foldl_del_values]
  have : "Authorization" ∉ hopHeaders.map CanonicalMIMEHeaderKey := by decide
  simp [this, Header.Values]

theorem prepareOutreq_refused (lib : ProxyLib) (req outreq : Request)
    (h : IsPrint (upgradeType outreq.Header) = false) :
    prepareOutreq lib req outreq =
      .error (.errorString ("client tried to switch to invalid protocol " ++
        lib.Quote (upgradeType outreq.Header))) := by
  simp [prepareOutreq, h]

theorem put_steps_authorization (lib : ProxyLib) (req : Request) (reqUpType : String)
    (h : Header) :
    (putUserAgent (putForwardedFor lib req (putUpgrade reqUpType (putTrailers req h)))).values
      "Authorization" = h.values "Authorization" := by
  have hset : ∀ (g : Header) (k v : String), k ≠ "Authorization" →
      (g.Set k v).values "Authorization" = g.values "Authorization" := by
    intro g k v hk
    simp [Header.Set, Ne.symm hk]
  have h1 : ∀ g, (putUserAgent g).values "Authorization" = g.values "Authorization" := by
    intro g
    unfold putUserAgent
    split
    · exact hset g _ _ (by decide)
    · rfl
  have h2 : ∀ g, (putForwardedFor lib req g).values "Authorization" =
      g.values "Authorization" := by
    intro g
    unfold putForwardedFor
    split
    · exact hset g _ _ (by decide)
    · rfl
  have h3 : ∀ g, (putUpgrade reqUpType g).values "Authorization" =
      g.values "Authorization" := by
    intro g
    unfold putUpgrade
    split
    · rw [hset _ _ _ (by decide), hset _ _ _ (by decide)]
    · rfl
  have h4 : ∀ g, (putTrailers req g).values "Authorization" = g.values "Authorization" := by
    intro g
    unfold putTrailers
    split
    · exact hset g _ _ (by decide)
    · rfl
  rw [h1, h2, h3, h4]

theorem prepareOutreq_ok (lib : ProxyLib) (req outreq : Request)
    (h : IsPrint (upgradeType outreq.Header) = true) :
    ∃ out, prepareOutreq lib req outreq = .ok out ∧ out.ctxError = outreq.ctxError ∧
      out.URL = outreq.URL ∧
      out.Header.Values "Authorization" =
        if "Authorization" ∈ namedInConnection outreq.Header then []
        else outreq.Header.Values "Authorization" := by
  simp only [prepareOutreq, h, Bool.true_eq_false, if_false]
  refine ⟨_, rfl, rfl, rfl, ?_⟩
  simp only [Header.Values]
  rw [put_steps_authorization, removeHopByHop_authorization]

theorem prepareOutreq_cases (lib : ProxyLib) (req outreq out : Request)
    (h : prepareOutreq lib req outreq = .ok out) :
    IsPrint (upgradeType outreq.Header) = true ∧ out.ctxError = outreq.ctxError ∧
      out.URL = outreq.URL ∧
      out.Header.Values "Authorization" =
        if "Authorization" ∈ namedInConnection outreq.Header then []
        else outreq.Header.Values "Authorization" := by
  cases hp : IsPrint (upgradeType outreq.Header) with
  | false =>
    rw [prepareOutreq_refused lib req outreq hp] at h
    cases h
  | true =>
    obtain ⟨out2, h2, h3⟩ := prepareOutreq_ok lib req outreq hp
    rw [h2] at h
    cases h
    exact ⟨rfl, h3⟩

theorem serveHTTP_refused (lib : ProxyLib) (p : ReverseProxy) (req : Request) (err : GoError)
    (h : p.outreq lib req = .error err) :
    p.ServeHTTP lib req = { val := p.getErrorHandler req err, events := (p.Director req).events } := by
  unfold ReverseProxy.outreq at h
  simp only [ReverseProxy.ServeHTTP, h]

theorem serveHTTP_events (lib : ProxyLib) (p : ReverseProxy) (req out : Request)
    (h : p.outreq lib req = .ok out) :
    (p.ServeHTTP lib req).events = (p.Director req).events ++ [Event.roundTrip out] := by
  unfold ReverseProxy.outreq at h
  simp only [ReverseProxy.ServeHTTP, h]
  split
  · rfl
  · split
    · rfl
    · split <;> rfl

theorem serveHTTP_transport_error (lib : ProxyLib) (p : ReverseProxy) (req out : Request)
    (err : GoError) (h : p.outreq lib req = .ok out) (ht : p.Transport out = .error err) :
    (p.ServeHTTP lib req).val = p.getErrorHandler out err := by
  unfold ReverseProxy.outreq at h
  simp only [ReverseProxy.ServeHTTP, h, ht]

theorem serveHTTP_modify_error (lib : ProxyLib) (p : ReverseProxy) (req out : Request)
    (up : Reply) (err : GoError) (h : p.outreq lib req = .ok out) (ht : p.Transport out = .ok up)
    (hm : p.modifyResponse { StatusCode := up.Code, Body := up.Body, Request := out } =
      some err) :
    (p.ServeHTTP lib req).val = p.getErrorHandler out err := by
  unfold ReverseProxy.outreq at h
  simp only [ReverseProxy.ServeHTTP, h, ht, hm]

theorem serveHTTP_copy (lib : ProxyLib) (p : ReverseProxy) (req out : Request)
    (up : Reply) (h : p.outreq lib req = .ok out) (ht : p.Transport out = .ok up)
    (hm : p.modifyResponse { StatusCode := up.Code, Body := up.Body, Request := out } = none)
    (hc : up.Code ≠ StatusSwitchingProtocols) :
    (p.ServeHTTP lib req).val = up := by
  unfold ReverseProxy.outreq at h
  simp only [ReverseProxy.ServeHTTP, h, ht, hm, hc, if_false]

theorem serveHTTP_switch (lib : ProxyLib) (p : ReverseProxy) (req out : Request)
    (up : Reply) (h : p.outreq lib req = .ok out) (ht : p.Transport out = .ok up)
    (hm : p.modifyResponse { StatusCode := up.Code, Body := up.Body, Request := out } = none)
    (hc : up.Code = StatusSwitchingProtocols) :
    (p.ServeHTTP lib req).val = p.handleUpgradeResponse lib out up := by
  unfold ReverseProxy.outreq at h
  obtain ⟨code, body⟩ := up
  simp only at hc
  subst hc
  simp only [ReverseProxy.ServeHTTP, h, ht, hm, if_true]

theorem writeErrors_code (handle : GoError → Reply) (first : GoError) (more : List GoError) :
    (writeErrors handle first more).Code = (handle first).Code := by
  unfold writeErrors
  generalize handle first = w
  induction more generalizing w with
  | nil => rfl
  | cons e es ih => rw [List.foldl_cons, ih]

theorem handler_of_accepted (lib : ProxyLib) (parseBasicAuth : String → String × String × Bool)
    (randomPassword : String) (reverseProxy : ReverseProxy) (r : Request)
    (h : accepted parseBasicAuth randomPassword r) :
    handler lib parseBasicAuth randomPassword reverseProxy r = reverseProxy.ServeHTTP lib r := by
  unfold accepted at h
  unfold handler
  simp [h.1, h.2.1, h.2.2]

theorem handler_of_not_accepted (lib : ProxyLib)
    (parseBasicAuth : String → String × String × Bool)
    (randomPassword : String) (reverseProxy : ReverseProxy) (r : Request)
    (h : ¬ accepted parseBasicAuth randomPassword r) :
    handler lib parseBasicAuth randomPassword reverseProxy r =
      { val := httpError "Unauthorized" StatusUnauthorized, events := [] } := by
  unfold accepted at h
  unfold handler
  simp only []
  rw [if_neg h]

theorem director_events (originalDirector : Request → Effect Request)
    (tokenSource : TokenSource) (proxyTargetUrl : URL) (req : Request) :
    (reverseProxyDirector originalDirector tokenSource proxyTargetUrl req).events =
      (originalDirector req).events ++ [Event.token] := by
  cases hts : tokenSource.Token <;> simp [reverseProxyDirector, hts]

theorem director_ctx_of_error (originalDirector : Request → Effect Request)
    (tokenSource : TokenSource) (proxyTargetUrl : URL) (req : Request) (e : GoError)
    (h : tokenSource.Token = .error e) :
    (reverseProxyDirector originalDirector tokenSource proxyTargetUrl req).val.ctxError =
      some (errorfW "get token: " e) := by
  simp [reverseProxyDirector, h, Request.withContextError]

theorem director_ctx_of_empty (originalDirector : Request → Effect Request)
    (tokenSource : TokenSource) (proxyTargetUrl : URL) (req : Request) (t : Token)
    (h : tokenSource.Token = .ok t) (hempty : t.AccessToken = "") :
    (reverseProxyDirector originalDirector tokenSource proxyTargetUrl req).val.ctxError =
      some (.errorString "empty token") := by
  simp [reverseProxyDirector, h, hempty, Request.withContextError]

theorem director_other_header (originalDirector : Request → Effect Request)
    (tokenSource : TokenSource) (proxyTargetUrl : URL) (req : Request) (k : String)
    (h1 : k ≠ "Host") (h2 : k ≠ "Authorization") :
    (reverseProxyDirector originalDirector tokenSource proxyTargetUrl req).val.Header.values k =
      (originalDirector req).val.Header.values k := by
  cases hts : tokenSource.Token with
  | error e => simp [reverseProxyDirector, hts, Header.Set, Request.withContextError, h1, h2]
  | ok t =>
    by_cases he : t.AccessToken = ""
    · simp [reverseProxyDirector, hts, Header.Set, Request.withContextError, h1, h2, he]
    · simp [reverseProxyDirector, hts, Header.Set, Request.withContextError, h1, h2, he]

theorem proxy_director (joinURLPath : URL → URL → String × String)
    (network : Request → Except GoError Reply) (tokenSource : TokenSource) (targetUrl : URL) :
    (newReverseProxy joinURLPath network tokenSource targetUrl).Director =
      reverseProxyDirector
        (fun req => { val := rewriteRequestURL joinURLPath targetUrl req, events := [] })
        tokenSource targetUrl := rfl

theorem proxy_director_events (joinURLPath : URL → URL → String × String)
    (network : Request → Except GoError Reply) (tokenSource : TokenSource) (targetUrl : URL)
    (r : Request) :
    ((newReverseProxy joinURLPath network tokenSource targetUrl).Director r).events =
      [Event.token] := by
  rw [proxy_director, director_events]
  rfl

theorem proxy_director_upgradeType (joinURLPath : URL → URL → String × String)
    (network : Request → Except GoError Reply) (tokenSource : TokenSource) (targetUrl : URL)
    (r : Request) :
    upgradeType ((newReverseProxy joinURLPath network tokenSource targetUrl).Director r).val.Header =
      upgradeType r.Header := by
  have h : ∀ k, k ≠ "Host" → k ≠ "Authorization" →
      ((newReverseProxy joinURLPath network tokenSource targetUrl).Director r).val.Header.values k =
        r.Header.values k := by
    intro k h1 h2
    rw [proxy_director, director_other_header _ _ _ _ k h1 h2]
    rfl
  simp only [upgradeType, Header.Values, Header.Get]
  rw [h "Connection" (by decide) (by decide), h "Upgrade" (by decide) (by decide)]

theorem proxy_director_named (joinURLPath : URL → URL → String × String)
    (network : Request → Except GoError Reply) (tokenSource : TokenSource) (targetUrl : URL)
    (r : Request) :
    namedInConnection
        ((newReverseProxy joinURLPath network tokenSource targetUrl).Director r).val.Header =
      namedInConnection r.Header := by
  simp only [namedInConnection, Header.Values]
  rw [proxy_director, director_other_header _ _ _ _ "Connection" (by decide) (by decide)]
  rfl

theorem proxy_outreq_ok (lib : ProxyLib) (joinURLPath : URL → URL → String × String)
    (network : Request → Except GoError Reply) (tokenSource : TokenSource) (targetUrl : URL)
    (r : Request) (h : IsPrint (upgradeType r.Header) = true) :
    ∃ out, (newReverseProxy joinURLPath network tokenSource targetUrl).outreq lib r = .ok out ∧
      out.ctxError =
        ((newReverseProxy joinURLPath network tokenSource targetUrl).Director r).val.ctxError ∧
      out.Header.Values "Authorization" =
        if "Authorization" ∈ namedInConnection r.Header then []
        else ((newReverseProxy joinURLPath network tokenSource targetUrl).Director
          r).val.Header.Values "Authorization" := by
  unfold ReverseProxy.outreq
  obtain ⟨out, h1, h2, _, h4⟩ := prepareOutreq_ok lib r
    ((newReverseProxy joinURLPath network tokenSource targetUrl).Director r).val
    (by rw [proxy_director_upgradeType]; exact h)
  rw [proxy_director_named] at h4
  exact ⟨out, h1, h2, h4⟩

theorem proxy_outreq_cases (lib : ProxyLib) (joinURLPath : URL → URL → String × String)
    (network : Request → Except GoError Reply) (tokenSource : TokenSource) (targetUrl : URL)
    (r out : Request)
    (h : (newReverseProxy joinURLPath network tokenSource targetUrl).outreq lib r = .ok out) :
    IsPrint (upgradeType r.Header) = true ∧
      out.ctxError =
        ((newReverseProxy joinURLPath network tokenSource targetUrl).Director r).val.ctxError ∧
      out.Header.Values "Authorization" =
        if "Authorization" ∈ namedInConnection r.Header then []
        else ((newReverseProxy joinURLPath network tokenSource targetUrl).Director
          r).val.Header.Values "Authorization" := by
  unfold ReverseProxy.outreq at h
  obtain ⟨h1, h2, _, h4⟩ := prepareOutreq_cases lib r _ out h
  rw [proxy_director_upgradeType] at h1
  rw [proxy_director_named] at h4
  exact ⟨h1, h2, h4⟩

theorem proxy_refused (lib : ProxyLib) (joinURLPath : URL → URL → String × String)
    (network : Request → Except GoError Reply) (tokenSource : TokenSource) (targetUrl : URL)
    (r : Request) (err : GoError)
    (h : (newReverseProxy joinURLPath network tokenSource targetUrl).outreq lib r = .error err) :
    (newReverseProxy joinURLPath network tokenSource targetUrl).ServeHTTP lib r =
      { val := httpError err.Error StatusInternalServerError, events := [Event.token] } := by
  rw [serveHTTP_refused lib _ r err h, proxy_director_events]
  rfl

theorem proxy_events (lib : ProxyLib) (joinURLPath : URL → URL → String × String)
    (network : Request → Except GoError Reply) (tokenSource : TokenSource) (targetUrl : URL)
    (r out : Request)
    (h : (newReverseProxy joinURLPath network tokenSource targetUrl).outreq lib r = .ok out) :
    ((newReverseProxy joinURLPath network tokenSource targetUrl).ServeHTTP lib r).events =
      [Event.token, Event.roundTrip out] := by
  rw [serveHTTP_events lib _ r out h, proxy_director_events]
  rfl

theorem proxy_transport_error (lib : ProxyLib) (joinURLPath : URL → URL → String × String)
    (network : Request → Except GoError Reply) (tokenSource : TokenSource) (targetUrl : URL)
    (r out : Request) (err : GoError)
    (h : (newReverseProxy joinURLPath network tokenSource targetUrl).outreq lib r = .ok out)
    (ht : network out = .error err) :
    ((newReverseProxy joinURLPath network tokenSource targetUrl).ServeHTTP lib r).val =
      httpError err.Error StatusInternalServerError := by
  rw [serveHTTP_transport_error lib _ r out err h ht]
  rfl

theorem proxy_answer_recorded (lib : ProxyLib) (joinURLPath : URL → URL → String × String)
    (network : Request → Except GoError Reply) (tokenSource : TokenSource) (targetUrl : URL)
    (r out : Request) (up : Reply) (cause : GoError)
    (h : (newReverseProxy joinURLPath network tokenSource targetUrl).outreq lib r = .ok out)
    (ht : network out = .ok up) (hc : out.ctxError = some cause) :
    ((newReverseProxy joinURLPath network tokenSource targetUrl).ServeHTTP lib r).val =
      httpError ("proxy error: " ++ cause.Error) StatusInternalServerError := by
  rw [serveHTTP_modify_error lib _ r out up (.errorString ("proxy error: " ++ cause.Error)) h ht
    (by simp [ReverseProxy.modifyResponse, newReverseProxy, modifyResponse, hc])]
  rfl

theorem proxy_modify_clean (joinURLPath : URL → URL → String × String)
    (network : Request → Except GoError Reply) (tokenSource : TokenSource) (targetUrl : URL)
    (out : Request) (up : Reply) (hc : out.ctxError = none) :
    (newReverseProxy joinURLPath network tokenSource targetUrl).modifyResponse
      { StatusCode := up.Code, Body := up.Body, Request := out } = none := by
  simp [ReverseProxy.modifyResponse, newReverseProxy, modifyResponse, hc]

theorem proxy_answer_clean (lib : ProxyLib) (joinURLPath : URL → URL → String × String)
    (network : Request → Except GoError Reply) (tokenSource : TokenSource) (targetUrl : URL)
    (r out : Request) (up : Reply)
    (h : (newReverseProxy joinURLPath network tokenSource targetUrl).outreq lib r = .ok out)
    (ht : network out = .ok up) (hc : out.ctxError = none)
    (hcode : up.Code ≠ StatusSwitchingProtocols) :
    ((newReverseProxy joinURLPath network tokenSource targetUrl).ServeHTTP lib r).val = up :=
  serveHTTP_copy lib _ r out up h ht (proxy_modify_clean _ _ _ _ out up hc) hcode

theorem proxy_answer_switch (lib : ProxyLib) (joinURLPath : URL → URL → String × String)
    (network : Request → Except GoError Reply) (tokenSource : TokenSource) (targetUrl : URL)
    (r out : Request) (up : Reply)
    (h : (newReverseProxy joinURLPath network tokenSource targetUrl).outreq lib r = .ok out)
    (ht : network out = .ok up) (hc : out.ctxError = none)
    (hcode : up.Code = StatusSwitchingProtocols) :
    ((newReverseProxy joinURLPath network tokenSource targetUrl).ServeHTTP lib r).val.Code = 101 ∨
    ((newReverseProxy joinURLPath network tokenSource targetUrl).ServeHTTP lib r).val.Code = 500 := by
  rw [serveHTTP_switch lib _ r out up h ht (proxy_modify_clean _ _ _ _ out up hc) hcode]
  unfold ReverseProxy.handleUpgradeResponse
  split
  · exact Or.inl rfl
  · right
    rw [writeErrors_code]
    rfl

theorem httpError_body (text : String) (code : Nat) :
    (httpError text code).Body = text ++ "\n" := rfl

theorem contains_get_token (pre post : String) :
    containsText (pre ++ "get token" ++ post) "get token" :=
  ⟨pre.data, post.data, by simp⟩

theorem ex_accepted : accepted exParse exSecret (exRequest [exBasicValue]) := by
  unfold accepted
  decide

theorem ex_outreq (network : Request → Except GoError Reply) (tokenSource : TokenSource) :
    ∃ out, (newReverseProxy exJoin network tokenSource exTarget).outreq exLib
      (exRequest [exBasicValue]) = .ok out :=
  have ⟨out, h, _⟩ := proxy_outreq_ok exLib exJoin network tokenSource exTarget
    (exRequest [exBasicValue]) (by decide)
  ⟨out, h⟩

theorem handler_delegates_iff (lib : ProxyLib) (parseBasicAuth : String → String × String × Bool)
    (randomPassword : String) (joinURLPath : URL → URL → String × String)
    (network : Request → Except GoError Reply) (tokenSource : TokenSource) (targetUrl : URL)
    (r : Request) :
    handler lib parseBasicAuth randomPassword
        (newReverseProxy joinURLPath network tokenSource targetUrl) r =
        (newReverseProxy joinURLPath network tokenSource targetUrl).ServeHTTP lib r ↔
      accepted parseBasicAuth randomPassword r := by
  refine ⟨fun heq => ?_, fun hacc => handler_of_accepted lib _ _ _ _ hacc⟩
  by_contra hrej
  have h1 := handler_of_not_accepted lib parseBasicAuth randomPassword
    (newReverseProxy joinURLPath network tokenSource targetUrl) r hrej
  have h2 := congrArg Effect.events (h1.symm.trans heq)
  cases hout : (newReverseProxy joinURLPath network tokenSource targetUrl).outreq lib r with
  | error err =>
    rw [proxy_refused lib _ _ _ _ _ err hout] at h2
    simp at h2
  | ok out =>
    rw [proxy_events lib _ _ _ _ _ out hout] at h2
    simp at h2

/-! ## Lemmas on `run` -/

theorem selectTokenSource_error (w : World) (targetUrl : URL) (impersonateServiceAccount : String)
    (e : GoError) (h : selectTokenSource w targetUrl impersonateServiceAccount = .error e) :
    e.asExitError = none := by
  unfold selectTokenSource newImpersonateServiceAccountTokenSource at h
  simp only [] at h
  generalize (if impersonateServiceAccount = "" then
    w.Getenv "ARA_CLOUD_RUN_IMPERSONATE_SERVICE_ACCOUNT" else impersonateServiceAccount) =
    principal at h
  by_cases hp : principal ≠ ""
  · rw [if_pos hp] at h
    cases hI : w.IDTokenSource (targetUrl.Scheme ++ "://" ++ targetUrl.Host ++ "/") principal with
    | error err =>
      rw [hI] at h
      cases h
      rfl
    | ok ts =>
      rw [hI] at h
      cases h
  · rw [if_neg hp] at h
    cases hI : w.NewTokenSource (targetUrl.Scheme ++ "://" ++ targetUrl.Host ++ "/") with
    | error err =>
      rw [hI] at h
      cases h
      rfl
    | ok ts =>
      rw [hI] at h
      cases h

theorem run_cases (w : World) (cloudRunUrl impersonateServiceAccount : String)
    (args : List String) :
    (∃ err, run w cloudRunUrl impersonateServiceAccount args =
        { trace := [], outcome := .failed err } ∧ err.asExitError = none ∧
      ∀ addr bytes, ¬ SelfTestPasses w cloudRunUrl impersonateServiceAccount addr bytes) ∨
    (∃ addr bytes targetUrl tokenSource,
      w.Listen = .ok addr ∧ w.randRead = .ok bytes ∧ resolvedUrl w cloudRunUrl ≠ "" ∧
      w.urlParse (resolvedUrl w cloudRunUrl) = .ok targetUrl ∧
      selectTokenSource w targetUrl impersonateServiceAccount = .ok tokenSource ∧
      run w cloudRunUrl impersonateServiceAccount args =
        runSelfTest w addr (sprintfHex bytes.val) targetUrl tokenSource
          (fourEntries addr (sprintfHex bytes.val)) args) := by
  unfold run
  simp only []
  cases hL : w.Listen with
  | error e =>
    refine Or.inl ⟨_, rfl, rfl, ?_⟩
    rintro addr bytes ⟨h1, _⟩
    rw [hL] at h1
    cases h1
  | ok addr =>
    cases hR : w.randRead with
    | error e =>
      refine Or.inl ⟨_, rfl, rfl, ?_⟩
      rintro addr2 bytes ⟨_, h2, _⟩
      rw [hR] at h2
      cases h2
    | ok bytes =>
      simp only []
      have hres : (if cloudRunUrl = "" then w.Getenv "ARA_CLOUD_RUN_URL" else cloudRunUrl) =
          resolvedUrl w cloudRunUrl := rfl
      rw [hres]
      by_cases hu : resolvedUrl w cloudRunUrl = ""
      · rw [if_pos hu]
        refine Or.inl ⟨_, rfl, rfl, ?_⟩
        rintro addr2 bytes2 ⟨_, _, h3, _⟩
        exact h3 hu
      · rw [if_neg hu]
        cases hP : w.urlParse (resolvedUrl w cloudRunUrl) with
        | error e =>
          refine Or.inl ⟨_, rfl, rfl, ?_⟩
          rintro addr2 bytes2 ⟨_, _, _, t, ts, req, resp, h4, _⟩
          rw [hP] at h4
          cases h4
        | ok targetUrl =>
          simp only []
          cases hT : selectTokenSource w targetUrl impersonateServiceAccount with
          | error e =>
            refine Or.inl ⟨e, rfl, selectTokenSource_error _ _ _ _ hT, ?_⟩
            rintro addr2 bytes2 ⟨_, _, _, t, ts, req, resp, h4, h5, _⟩
            rw [hP] at h4
            cases h4
            rw [hT] at h5
            cases h5
          | ok tokenSource =>
            exact Or.inr ⟨addr, bytes, targetUrl, tokenSource, rfl, rfl, hu, rfl, hT, rfl⟩

theorem runChild_cases (w : World) (trace : List RunEvent) (env args : List String) :
    (args = [] ∧ runChild w trace env args = { trace := trace, outcome := .panicked }) ∨
    (∃ name arg, args = name :: arg ∧
      ((∃ text, w.commandErr name = some text ∧
          runChild w trace env args =
            { trace := trace, outcome := .failed (.errorString text) }) ∨
       (w.commandErr name = none ∧ (dedupEnv (w.Environ ++ env)).2 = true ∧
          runChild w trace env args =
            { trace := trace
              outcome := .failed (.errorString "exec: environment variable contains NUL") }) ∨
       (w.commandErr name = none ∧ (dedupEnv (w.Environ ++ env)).2 = false ∧
          runChild w trace env args =
            { trace := trace ++
                [RunEvent.spawn name arg (dedupEnv (w.Environ ++ env)).1
                  (w.child name arg (dedupEnv (w.Environ ++ env)).1)]
              outcome := outcomeOfChild (w.child name arg (dedupEnv (w.Environ ++ env)).1) }))) := by
  cases args with
  | nil => exact Or.inl ⟨rfl, rfl⟩
  | cons name arg =>
    refine Or.inr ⟨name, arg, rfl, ?_⟩
    cases hc : w.commandErr name with
    | some text =>
      refine Or.inl ⟨text, rfl, ?_⟩
      simp only [runChild, hc]
    | none =>
      cases hn : (dedupEnv (w.Environ ++ env)).2 with
      | true =>
        refine Or.inr (Or.inl ⟨rfl, rfl, ?_⟩)
        simp only [runChild, hc, hn, if_true]
      | false =>
        refine Or.inr (Or.inr ⟨rfl, rfl, ?_⟩)
        simp only [runChild, hc, hn, outcomeOfChild]
        generalize cmdRun (w.child name arg (dedupEnv (w.Environ ++ env)).1) = x
        cases x <;> rfl

theorem runSelfTest_cases (w : World) (addr randomPassword : String) (targetUrl : URL)
    (tokenSource : TokenSource) (env args : List String) :
    (∃ err, runSelfTest w addr randomPassword targetUrl tokenSource env args =
      { trace := [RunEvent.serve addr randomPassword targetUrl tokenSource]
        outcome := .failed err } ∧ err.asExitError = none ∧
      ∀ req, NewRequestWithContext w "GET" ("http://" ++ addr ++ "/api/") ≠ .ok req) ∨
    (∃ req, NewRequestWithContext w "GET" ("http://" ++ addr ++ "/api/") = .ok req ∧
      ((∃ err, (∀ resp, w.clientDo (req.SetBasicAuth w "ara" randomPassword) = .ok resp →
            resp.Code ≠ 200) ∧ err.asExitError = none ∧
          runSelfTest w addr randomPassword targetUrl tokenSource env args =
            { trace := [RunEvent.serve addr randomPassword targetUrl tokenSource,
                RunEvent.selfTest ("http://" ++ addr ++ "/api/")
                  (req.SetBasicAuth w "ara" randomPassword)
                  (w.clientDo (req.SetBasicAuth w "ara" randomPassword))]
              outcome := .failed err }) ∨
       (∃ resp, w.clientDo (req.SetBasicAuth w "ara" randomPassword) = .ok resp ∧
          resp.Code = 200 ∧
          runSelfTest w addr randomPassword targetUrl tokenSource env args =
            runChild w [RunEvent.serve addr randomPassword targetUrl tokenSource,
                RunEvent.selfTest ("http://" ++ addr ++ "/api/")
                  (req.SetBasicAuth w "ara" randomPassword) (.ok resp)] env args))) := by
  unfold runSelfTest
  simp only []
  cases hN : NewRequestWithContext w "GET" ("http://" ++ addr ++ "/api/") with
  | error e =>
    refine Or.inl ⟨_, rfl, rfl, ?_⟩
    intro req h
    cases h
  | ok req =>
    refine Or.inr ⟨req, rfl, ?_⟩
    simp only []
    cases hD : w.clientDo (req.SetBasicAuth w "ara" randomPassword) with
    | error e =>
      refine Or.inl ⟨errorfW "send request to ARA API: " e, ?_, rfl, rfl⟩
      intro resp h
      cases h
    | ok resp =>
      simp only []
      by_cases hc : resp.Code = 200
      · refine Or.inr ⟨resp, rfl, hc, ?_⟩
        simp [StatusOK, hc]
      · refine Or.inl ⟨.errorString
          ("ara API returns unexpceted status code(" ++ toString resp.Code ++ ")"), ?_, rfl, ?_⟩
        · intro resp2 h
          cases h
          exact hc
        · simp [StatusOK, hc]

theorem newRequest_fields (w : World) (method url : String) (req : Request)
    (h : NewRequestWithContext w method url = .ok req) :
    req.Method = method ∧ req.Header = Header.empty ∧ req.ctxError = none := by
  unfold NewRequestWithContext at h
  cases hP : w.urlParse url with
  | error e => rw [hP] at h; cases h
  | ok u => rw [hP] at h; cases h; exact ⟨rfl, rfl, rfl⟩

theorem run_of_selfTestPasses (w : World) (cloudRunUrl impersonateServiceAccount addr : String)
    (bytes : { b : List (Fin 256) // b.length = 16 }) (args : List String)
    (h : SelfTestPasses w cloudRunUrl impersonateServiceAccount addr bytes) :
    ∃ targetUrl tokenSource req resp,
      NewRequestWithContext w "GET" ("http://" ++ addr ++ "/api/") = .ok req ∧
      w.clientDo (req.SetBasicAuth w "ara" (sprintfHex bytes.val)) = .ok resp ∧
      resp.Code = 200 ∧
      run w cloudRunUrl impersonateServiceAccount args =
        runChild w [RunEvent.serve addr (sprintfHex bytes.val) targetUrl tokenSource,
            RunEvent.selfTest ("http://" ++ addr ++ "/api/")
              (req.SetBasicAuth w "ara" (sprintfHex bytes.val)) (.ok resp)]
          (fourEntries addr (sprintfHex bytes.val)) args := by
  obtain ⟨hL, hR, hU, targetUrl, tokenSource, req, resp, hP, hT, hN, hD, hc⟩ := h
  refine ⟨targetUrl, tokenSource, req, resp, hN, hD, hc, ?_⟩
  have hres : (if cloudRunUrl = "" then w.Getenv "ARA_CLOUD_RUN_URL" else cloudRunUrl) =
      resolvedUrl w cloudRunUrl := rfl
  simp only [run, hL, hR, hres, if_neg hU, hP, hT]
  simp only [runSelfTest, hN, hD, StatusOK, hc, ne_eq, not_true_eq_false, if_false]
  rfl

theorem run_shape (w : World) (cloudRunUrl impersonateServiceAccount : String)
    (args : List String) :
    (∃ tr err, run w cloudRunUrl impersonateServiceAccount args =
        { trace := tr, outcome := .failed err } ∧ err.asExitError = none ∧
      (∀ name arg env o, RunEvent.spawn name arg env o ∉ tr) ∧
      (∀ url req reply, RunEvent.selfTest url req (.ok reply) ∈ tr → reply.Code ≠ 200) ∧
      ∀ addr bytes, ¬ SelfTestPasses w cloudRunUrl impersonateServiceAccount addr bytes) ∨
    (∃ addr bytes targetUrl tokenSource req resp,
      SelfTestPasses w cloudRunUrl impersonateServiceAccount addr bytes ∧
      NewRequestWithContext w "GET" ("http://" ++ addr ++ "/api/") = .ok req ∧
      w.clientDo (req.SetBasicAuth w "ara" (sprintfHex bytes.val)) = .ok resp ∧
      resp.Code = 200 ∧
      run w cloudRunUrl impersonateServiceAccount args =
        runChild w [RunEvent.serve addr (sprintfHex bytes.val) targetUrl tokenSource,
            RunEvent.selfTest ("http://" ++ addr ++ "/api/")
              (req.SetBasicAuth w "ara" (sprintfHex bytes.val)) (.ok resp)]
          (fourEntries addr (sprintfHex bytes.val)) args) := by
  rcases run_cases w cloudRunUrl impersonateServiceAccount args with
    ⟨err, h, he, hno⟩ | ⟨addr, bytes, targetUrl, tokenSource, hL, hR, hU, hP, hT, hrun⟩
  · exact Or.inl ⟨[], err, h, he, by simp, by simp, hno⟩
  · have hpass : ∀ req resp,
        NewRequestWithContext w "GET" ("http://" ++ addr ++ "/api/") = .ok req →
        w.clientDo (req.SetBasicAuth w "ara" (sprintfHex bytes.val)) = .ok resp →
        resp.Code = 200 →
        SelfTestPasses w cloudRunUrl impersonateServiceAccount addr bytes :=
      fun req resp hN hD hc => ⟨hL, hR, hU, targetUrl, tokenSource, req, resp, hP, hT, hN, hD, hc⟩
    have hnot : ∀ addr2 bytes2,
        SelfTestPasses w cloudRunUrl impersonateServiceAccount addr2 bytes2 →
        ∃ req resp, NewRequestWithContext w "GET" ("http://" ++ addr ++ "/api/") = .ok req ∧
          w.clientDo (req.SetBasicAuth w "ara" (sprintfHex bytes.val)) = .ok resp ∧
          resp.Code = 200 := by
      rintro addr2 bytes2 ⟨hL2, hR2, _, _, _, req, resp, _, _, hN, hD, hc⟩
      rw [hL] at hL2
      rw [hR] at hR2
      cases hL2
      cases hR2
      exact ⟨req, resp, hN, hD, hc⟩
    rw [hrun]
    rcases runSelfTest_cases w addr (sprintfHex bytes.val) targetUrl tokenSource
      (fourEntries addr (sprintfHex bytes.val)) args with
      ⟨err, h, he, hN⟩ | ⟨req, hN, ⟨err, hbad, he, h⟩ | ⟨resp, hD, hc, hst⟩⟩
    · refine Or.inl ⟨_, err, h, he, by simp, by simp, ?_⟩
      intro addr2 bytes2 hp
      obtain ⟨req, _, hN2, _⟩ := hnot addr2 bytes2 hp
      exact hN req hN2
    · refine Or.inl ⟨_, err, h, he, by simp, ?_, ?_⟩
      · intro url req2 reply hmem
        simp at hmem
        exact hbad reply hmem.2.2.symm
      · intro addr2 bytes2 hp
        obtain ⟨req2, resp, hN2, hD2, hc2⟩ := hnot addr2 bytes2 hp
        rw [hN] at hN2
        cases hN2
        exact hbad resp hD2 hc2
    · exact Or.inr ⟨addr, bytes, targetUrl, tokenSource, req, resp, hpass req resp hN hD hc,
        hN, hD, hc, hst⟩

/-! ## Lemmas on the environment of the child -/

theorem hexChars_length (bs : List (Fin 256)) : (hexChars bs).length = 2 * bs.length := by
  induction bs with
  | nil => rfl
  | cons b bs ih => simp [hexChars, hexByte, ih]; omega

theorem hexDigit_mem : ∀ n, n < 16 → hexDigit n ∈ "0123456789abcdef".data := by
  decide

theorem hexChars_mem (bs : List (Fin 256)) :
    ∀ c ∈ hexChars bs, c ∈ "0123456789abcdef".data := by
  induction bs with
  | nil => intro c hc; cases hc
  | cons b bs ih =>
    intro c hc
    simp only [hexChars, hexByte, List.mem_append, List.mem_cons, List.mem_singleton,
      List.not_mem_nil, or_false] at hc
    rcases hc with (hc | hc) | hc
    · rw [hc]; exact hexDigit_mem _ (by have := b.isLt; omega)
    · rw [hc]; exact hexDigit_mem _ (by omega)
    · exact ih c hc

theorem hexValue_hexDigit : ∀ n, n < 16 → hexValue (hexDigit n) = n := by
  decide

theorem hexDecode_hexChars (bs : List (Fin 256)) :
    hexDecode (hexChars bs) = bs.map (fun b => b.val) := by
  induction bs with
  | nil => rfl
  | cons b bs ih =>
    have h1 := hexValue_hexDigit (b.val / 16) (by have := b.isLt; omega)
    have h2 := hexValue_hexDigit (b.val % 16) (by omega)
    simp only [hexChars, hexByte, List.cons_append, List.nil_append, hexDecode, h1, h2, ih,
      List.map_cons]
    congr 1
    omega

theorem sprintfHex_no_nul (bs : List (Fin 256)) :
    Char.ofNat 0 ∉ (sprintfHex bs).data := by
  intro h
  have := hexChars_mem bs _ h
  revert this
  decide

theorem dedupFromEnd_sublist (saw : List String) (l : List String) :
    (dedupFromEnd saw l).Sublist l := by
  induction l generalizing saw with
  | nil => exact List.Sublist.slnil
  | cons kv rest ih =>
    unfold dedupFromEnd
    split
    · exact (ih saw).cons _
    · split
      · split
        · exact (ih saw).cons₂ _
        · exact (ih saw).cons _
      · split
        · exact (ih saw).cons _
        · exact (ih _).cons₂ _

theorem dedupFromEnd_keys (saw : List String) (l : List String) :
    ∀ kv ∈ dedupFromEnd saw l, ∀ k, envKey kv = some k → k ∉ saw := by
  induction l generalizing saw with
  | nil => intro kv h; cases h
  | cons kv rest ih =>
    intro x hx k hk
    unfold dedupFromEnd at hx
    split at hx
    · exact ih saw x hx k hk
    · split at hx
      · rename_i hnone
        split at hx
        · rcases List.mem_cons.mp hx with rfl | hx
          · rw [hnone] at hk; cases hk
          · exact ih saw x hx k hk
        · exact ih saw x hx k hk
      · rename_i k2 hsome
        split at hx
        · exact ih saw x hx k hk
        · rename_i hnot
          rcases List.mem_cons.mp hx with rfl | hx
          · rw [hsome] at hk
            cases hk
            exact hnot
          · exact fun hmem => ih (k2 :: saw) x hx k hk (List.mem_cons_of_mem _ hmem)

theorem dedupFromEnd_clean (saw : List String) (l : List String)
    (h1 : ∀ kv ∈ l, hasNUL kv = false ∧ kv ≠ "" ∧ ∀ k, envKey kv = some k → k ∉ saw)
    (h2 : l.Pairwise (fun a b => ∀ k, envKey a = some k → envKey b ≠ some k)) :
    dedupFromEnd saw l = l := by
  induction l generalizing saw with
  | nil => rfl
  | cons kv rest ih =>
    obtain ⟨hnul, hne, hkey⟩ := h1 kv (List.mem_cons_self _ _)
    have hrest := fun x hx => h1 x (List.mem_cons_of_mem _ hx)
    rw [List.pairwise_cons] at h2
    unfold dedupFromEnd
    rw [if_neg (by simp [hnul])]
    cases hk : envKey kv with
    | none =>
      simp only [ne_eq, hne, not_false_eq_true, if_true]
      rw [ih saw hrest h2.2]
    | some k =>
      simp only [hkey k hk, if_false]
      rw [ih (k :: saw) ?_ h2.2]
      intro x hx
      refine ⟨(hrest x hx).1, (hrest x hx).2.1, ?_⟩
      intro k2 hk2 hmem
      rcases List.mem_cons.mp hmem with rfl | hmem
      · exact h2.1 x hx k2 hk hk2
      · exact (hrest x hx).2.2 k2 hk2 hmem

theorem envKey_server (addr : String) :
    envKey ("ARA_API_SERVER=http://" ++ addr) = some "ARA_API_SERVER" := by
  simp [envKey, List.takeWhile]

theorem envKey_password (secret : String) :
    envKey ("ARA_API_PASSWORD=" ++ secret) = some "ARA_API_PASSWORD" := by
  simp [envKey, List.takeWhile]

theorem dedupEnv_four (environ : List String) (addr secret : String)
    (h1 : hasNUL ("ARA_API_SERVER=http://" ++ addr) = false)
    (h2 : hasNUL ("ARA_API_PASSWORD=" ++ secret) = false) :
    (dedupEnv (environ ++ fourEntries addr secret)).1 =
      (dedupFromEnd fourNames environ.reverse).reverse ++ fourEntries addr secret := by
  have e1 : envKey "ARA_API_CLIENT=http" = some "ARA_API_CLIENT" := by decide
  have e3 : envKey "ARA_API_USERNAME=ara" = some "ARA_API_USERNAME" := by decide
  have n1 : hasNUL "ARA_API_CLIENT=http" = false := by decide
  have n3 : hasNUL "ARA_API_USERNAME=ara" = false := by decide
  simp only [dedupEnv, fourEntries, List.reverse_append, List.reverse_cons, List.reverse_nil,
    List.nil_append, List.cons_append, dedupFromEnd, h1, h2, n1, n3, e1, e3, envKey_server,
    envKey_password, Bool.false_eq_true, if_false, List.mem_cons, List.mem_singleton,
    List.not_mem_nil, List.append_assoc, fourNames]
  simp

theorem dedupEnv_nul (env : List String) (h : (dedupEnv env).2 = false) :
    ∀ kv ∈ env, hasNUL kv = false := by
  intro kv hkv
  simp only [dedupEnv, List.any_eq_false] at h
  simpa using h kv hkv

theorem hasNUL_four (environ : List String) (addr secret : String)
    (hn : (dedupEnv (environ ++ fourEntries addr secret)).2 = false) :
    hasNUL ("ARA_API_SERVER=http://" ++ addr) = false ∧
      hasNUL ("ARA_API_PASSWORD=" ++ secret) = false := by
  constructor
  · exact dedupEnv_nul _ hn _ (by simp [fourEntries])
  · exact dedupEnv_nul _ hn _ (by simp [fourEntries])

theorem outcomeOfChild_exited (c : Fin 256) :
    (match outcomeOfChild (.exited c) with
      | .failed err =>
        (match err.asExitError with
          | some code => ({ stderr := [], exitCode := osExit code } : Process)
          | none => { stderr := [err.Error ++ "\n"], exitCode := osExit 1 })
      | .returned => { stderr := [], exitCode := 0 }
      | .panicked => { stderr := [], exitCode := 2 }) =
      { stderr := [], exitCode := c.val } := by
  by_cases h : c.val = 0
  · simp [outcomeOfChild, cmdRun, h]
  · have hc := c.isLt
    simp only [outcomeOfChild, cmdRun, h, if_false, GoError.asExitError, osExit]
    congr 1
    have h256 : (Int.ofNat c.val) % 256 = Int.ofNat c.val :=
      Int.emod_eq_of_lt (Int.ofNat_nonneg _) (Int.ofNat_lt.mpr hc)
    rw [h256]
    rfl

/-! ## Lemmas on `Run` -/

theorem Run_of_error (w : World) (cloudRunUrl impersonateServiceAccount : String)
    (args : List String) (tr : List RunEvent) (err : GoError)
    (h : run w cloudRunUrl impersonateServiceAccount args =
      { trace := tr, outcome := .failed err })
    (he : err.asExitError = none) :
    Run w cloudRunUrl impersonateServiceAccount args =
      { stderr := [err.Error ++ "\n"], exitCode := 1 } := by
  unfold Run
  rw [h]
  simp only [he]
  rfl

theorem run_child_not_found (w : World) (cloudRunUrl impersonateServiceAccount addr : String)
    (bytes : { b : List (Fin 256) // b.length = 16 }) (name : String) (arg : List String)
    (text : String)
    (hp : SelfTestPasses w cloudRunUrl impersonateServiceAccount addr bytes)
    (hc : w.commandErr name = some text) :
    ∃ tr, run w cloudRunUrl impersonateServiceAccount (name :: arg) =
      { trace := tr, outcome := .failed (.errorString text) } ∧
      ∀ n a env o, RunEvent.spawn n a env o ∉ tr := by
  obtain ⟨targetUrl, tokenSource, req, resp, _, _, _, hrun⟩ :=
    run_of_selfTestPasses w cloudRunUrl impersonateServiceAccount addr bytes (name :: arg) hp
  refine ⟨[RunEvent.serve addr (sprintfHex bytes.val) targetUrl tokenSource,
    RunEvent.selfTest ("http://" ++ addr ++ "/api/")
      (req.SetBasicAuth w "ara" (sprintfHex bytes.val)) (.ok resp)], ?_, ?_⟩
  · rw [hrun]
    simp only [runChild, hc]
  · simp

theorem run_child_nul (w : World) (cloudRunUrl impersonateServiceAccount addr : String)
    (bytes : { b : List (Fin 256) // b.length = 16 }) (name : String) (arg : List String)
    (hp : SelfTestPasses w cloudRunUrl impersonateServiceAccount addr bytes)
    (hc : w.commandErr name = none)
    (hn : (w.Environ ++ fourEntries addr (sprintfHex bytes.val)).any hasNUL = true) :
    ∃ tr, run w cloudRunUrl impersonateServiceAccount (name :: arg) =
      { trace := tr
        outcome := .failed (.errorString "exec: environment variable contains NUL") } ∧
      ∀ n a env o, RunEvent.spawn n a env o ∉ tr := by
  obtain ⟨targetUrl, tokenSource, req, resp, _, _, _, hrun⟩ :=
    run_of_selfTestPasses w cloudRunUrl impersonateServiceAccount addr bytes (name :: arg) hp
  have hn2 : (dedupEnv (w.Environ ++ fourEntries addr (sprintfHex bytes.val))).2 = true := hn
  refine ⟨[RunEvent.serve addr (sprintfHex bytes.val) targetUrl tokenSource,
    RunEvent.selfTest ("http://" ++ addr ++ "/api/")
      (req.SetBasicAuth w "ara" (sprintfHex bytes.val)) (.ok resp)], ?_, ?_⟩
  · rw [hrun]
    simp only [runChild, hc, hn2, if_true]
  · simp

theorem run_child_started (w : World) (cloudRunUrl impersonateServiceAccount addr : String)
    (bytes : { b : List (Fin 256) // b.length = 16 }) (name : String) (arg : List String)
    (hp : SelfTestPasses w cloudRunUrl impersonateServiceAccount addr bytes)
    (hc : w.commandErr name = none)
    (hn : (w.Environ ++ fourEntries addr (sprintfHex bytes.val)).any hasNUL = false) :
    ∃ tr, run w cloudRunUrl impersonateServiceAccount (name :: arg) =
      { trace := tr ++
          [RunEvent.spawn name arg
            (dedupEnv (w.Environ ++ fourEntries addr (sprintfHex bytes.val))).1
            (w.child name arg
              (dedupEnv (w.Environ ++ fourEntries addr (sprintfHex bytes.val))).1)]
        outcome := outcomeOfChild (w.child name arg
          (dedupEnv (w.Environ ++ fourEntries addr (sprintfHex bytes.val))).1) } := by
  obtain ⟨targetUrl, tokenSource, req, resp, _, _, _, hrun⟩ :=
    run_of_selfTestPasses w cloudRunUrl impersonateServiceAccount addr bytes (name :: arg) hp
  have hn2 : (dedupEnv (w.Environ ++ fourEntries addr (sprintfHex bytes.val))).2 = false := hn
  rcases runChild_cases w [RunEvent.serve addr (sprintfHex bytes.val) targetUrl tokenSource,
      RunEvent.selfTest ("http://" ++ addr ++ "/api/")
        (req.SetBasicAuth w "ara" (sprintfHex bytes.val)) (.ok resp)]
      (fourEntries addr (sprintfHex bytes.val)) (name :: arg) with
    ⟨h, _⟩ | ⟨n, a, hargs, ⟨text, h, _⟩ | ⟨_, h, _⟩ | ⟨_, _, h⟩⟩
  · cases h
  · cases hargs
    rw [hc] at h
    cases h
  · rw [hn2] at h
    cases h
  · cases hargs
    exact ⟨_, hrun.trans h⟩

theorem Run_of_child (w : World) (cloudRunUrl impersonateServiceAccount addr : String)
    (bytes : { b : List (Fin 256) // b.length = 16 }) (name : String) (arg : List String)
    (hp : SelfTestPasses w cloudRunUrl impersonateServiceAccount addr bytes)
    (hc : w.commandErr name = none)
    (hn : (w.Environ ++ fourEntries addr (sprintfHex bytes.val)).any hasNUL = false) :
    Run w cloudRunUrl impersonateServiceAccount (name :: arg) =
      match w.child name arg
        (dedupEnv (w.Environ ++ fourEntries addr (sprintfHex bytes.val))).1 with
      | .exited c => { stderr := [], exitCode := c.val }
      | .signaled _ => { stderr := [], exitCode := 255 }
      | .startFailed text => { stderr := [text ++ "\n"], exitCode := 1 } := by
  obtain ⟨tr, hrun⟩ := run_child_started w cloudRunUrl impersonateServiceAccount addr bytes
    name arg hp hc hn
  unfold Run
  rw [hrun]
  simp only []
  cases w.child name arg (dedupEnv (w.Environ ++ fourEntries addr (sprintfHex bytes.val))).1 with
  | exited c => exact outcomeOfChild_exited c
  | signaled text => rfl
  | startFailed text => rfl

theorem ex_selfTestPasses (environ : List String) (child : ChildOutcome) :
    SelfTestPasses (exWorld exOriginOK exTokenT1 environ child) "https://api.example.com" ""
      "127.0.0.1:40000" ⟨List.replicate 16 0, rfl⟩ :=
  ⟨rfl, rfl, by unfold resolvedUrl; rw [if_neg (by decide)]; decide,
    exTarget, exTokenT1, _, _, rfl, rfl, rfl, rfl, rfl⟩

theorem proxy_unauthorized (lib : ProxyLib) (joinURLPath : URL → URL → String × String)
    (network : Request → Except GoError Reply) (tokenSource : TokenSource) (targetUrl : URL)
    (r : Request)
    (h : ((newReverseProxy joinURLPath network tokenSource targetUrl).ServeHTTP lib r).val.Code =
      401) :
    ∃ out up,
      (newReverseProxy joinURLPath network tokenSource targetUrl).outreq lib r = .ok out ∧
      network out = .ok up ∧ up.Code = 401 ∧
      ((newReverseProxy joinURLPath network tokenSource targetUrl).ServeHTTP lib r).val = up := by
  cases hout : (newReverseProxy joinURLPath network tokenSource targetUrl).outreq lib r with
  | error err =>
    rw [proxy_refused lib _ _ _ _ _ err hout] at h
    exact absurd h (by simp [httpError, StatusInternalServerError])
  | ok out =>
    cases hnet : network out with
    | error err =>
      rw [proxy_transport_error lib _ _ _ _ _ out err hout hnet] at h
      exact absurd h (by simp [httpError, StatusInternalServerError])
    | ok up =>
      cases hctx : out.ctxError with
      | some cause =>
        rw [proxy_answer_recorded lib _ _ _ _ _ out up cause hout hnet hctx] at h
        exact absurd h (by simp [httpError, StatusInternalServerError])
      | none =>
        by_cases hcode : up.Code = StatusSwitchingProtocols
        · rcases proxy_answer_switch lib _ _ _ _ _ out up hout hnet hctx hcode with h2 | h2
          · rw [h2] at h
            exact absurd h (by decide)
          · rw [h2] at h
            exact absurd h (by decide)
        · have hval := proxy_answer_clean lib _ _ _ _ _ out up hout hnet hctx hcode
          refine ⟨out, up, rfl, hnet, ?_, hval⟩
          rw [← hval]
          exact h

theorem dedup_rest_sublist (environ : List String) :
    ((dedupFromEnd fourNames environ.reverse).reverse).Sublist environ := by
  have h := (dedupFromEnd_sublist fourNames environ.reverse).reverse
  rwa [List.reverse_reverse] at h

theorem dedup_rest_keys (environ : List String) :
    ∀ kv ∈ (dedupFromEnd fourNames environ.reverse).reverse,
      ∀ k, envKey kv = some k → k ∉ fourNames := by
  intro kv hkv
  exact dedupFromEnd_keys fourNames environ.reverse kv (List.mem_reverse.mp hkv)

theorem dedup_rest_clean (environ : List String) (h : CleanEnviron environ) :
    (dedupFromEnd fourNames environ.reverse).reverse = environ := by
  rw [dedupFromEnd_clean fourNames environ.reverse, List.reverse_reverse]
  · intro kv hkv
    exact h.1 kv (List.mem_reverse.mp hkv)
  · rw [List.pairwise_reverse]
    refine h.2.imp ?_
    intro a b hab k hb ha
    exact hab k ha hb

theorem dedupFromEnd_complete (saw : List String) (l : List String) (kv k : String)
    (hmem : kv ∈ l) (hnul : hasNUL kv = false) (hk : envKey kv = some k) (hsaw : k ∉ saw) :
    ∃ kv2 ∈ dedupFromEnd saw l, envKey kv2 = some k := by
  induction l generalizing saw with
  | nil => cases hmem
  | cons x rest ih =>
    unfold dedupFromEnd
    by_cases hx : hasNUL x = true
    · rw [if_pos hx]
      rcases List.mem_cons.mp hmem with rfl | hmem
      · rw [hnul] at hx
        cases hx
      · exact ih saw hmem hsaw
    · rw [if_neg hx]
      cases hkx : envKey x with
      | none =>
        have hrest : kv ∈ rest := by
          rcases List.mem_cons.mp hmem with rfl | hmem
          · rw [hk] at hkx
            cases hkx
          · exact hmem
        obtain ⟨kv2, h2, h3⟩ := ih saw hrest hsaw
        simp only []
        split
        · exact ⟨kv2, List.mem_cons_of_mem _ h2, h3⟩
        · exact ⟨kv2, h2, h3⟩
      | some k2 =>
        simp only []
        by_cases hin : k2 ∈ saw
        · rw [if_pos hin]
          rcases List.mem_cons.mp hmem with rfl | hmem
          · rw [hk] at hkx
            cases hkx
            exact absurd hin hsaw
          · exact ih saw hmem hsaw
        · rw [if_neg hin]
          by_cases hkk : k = k2
          · subst hkk
            exact ⟨x, List.mem_cons_self _ _, hkx⟩
          · have hrest : kv ∈ rest := by
              rcases List.mem_cons.mp hmem with rfl | hmem
              · rw [hk] at hkx
                cases hkx
                exact absurd rfl hkk
              · exact hmem
            obtain ⟨kv2, h2, h3⟩ := ih (k2 :: saw) hrest (by
              intro hc
              rcases List.mem_cons.mp hc with hc | hc
              · exact hkk hc
              · exact hsaw hc)
            exact ⟨kv2, List.mem_cons_of_mem _ h2, h3⟩

theorem dedup_rest_complete (environ : List String) (kv k : String)
    (hmem : kv ∈ environ) (hnul : hasNUL kv = false) (hk : envKey kv = some k)
    (hfour : k ∉ fourNames) :
    ∃ kv2 ∈ (dedupFromEnd fourNames environ.reverse).reverse, envKey kv2 = some k := by
  obtain ⟨kv2, h2, h3⟩ := dedupFromEnd_complete fourNames environ.reverse kv k
    (List.mem_reverse.mpr hmem) hnul hk hfour
  exact ⟨kv2, List.mem_reverse.mpr h2, h3⟩

/-! ## The gatekeeper -/

/-- C1: the gatekeeper handler delegates to the reverse proxy if and only if basic-auth
credentials are present, the user name is `ara` and the password is the shared secret; in
every other case it answers 401 with the static text `Unauthorized` (as `http.Error` writes
it, ended by a line feed), requests no token and makes no upstream call. The two branches
are stated for any reverse proxy; for the reverse proxy that `run` builds, whose director
always asks for a token, what the handler does equals what the reverse proxy does exactly
when the credentials match. -/
theorem C1_gatekeeper (lib : ProxyLib) (parseBasicAuth : String → String × String × Bool)
    (randomPassword : String) (reverseProxy : ReverseProxy) (r : Request)
    (joinURLPath : URL → URL → String × String) (network : Request → Except GoError Reply)
    (tokenSource : TokenSource) (targetUrl : URL) :
    (((r.BasicAuth parseBasicAuth).2.2 = true ∧ (r.BasicAuth parseBasicAuth).1 = "ara" ∧
        (r.BasicAuth parseBasicAuth).2.1 = randomPassword) →
      handler lib parseBasicAuth randomPassword reverseProxy r = reverseProxy.ServeHTTP lib r) ∧
    (handler lib parseBasicAuth randomPassword
        (newReverseProxy joinURLPath network tokenSource targetUrl) r =
        (newReverseProxy joinURLPath network tokenSource targetUrl).ServeHTTP lib r ↔
      ((r.BasicAuth parseBasicAuth).2.2 = true ∧ (r.BasicAuth parseBasicAuth).1 = "ara" ∧
        (r.BasicAuth parseBasicAuth).2.1 = randomPassword)) ∧
    (¬ ((r.BasicAuth parseBasicAuth).2.2 = true ∧ (r.BasicAuth parseBasicAuth).1 = "ara" ∧
        (r.BasicAuth parseBasicAuth).2.1 = randomPassword) →
      (handler lib parseBasicAuth randomPassword reverseProxy r).val =
        httpError "Unauthorized" StatusUnauthorized ∧
      (handler lib parseBasicAuth randomPassword reverseProxy r).val.Code = 401 ∧
      (handler lib parseBasicAuth randomPassword reverseProxy r).val.Body = "Unauthorized\n" ∧
      (handler lib parseBasicAuth randomPassword reverseProxy r).events = [] ∧
      tokenRequests (handler lib parseBasicAuth randomPassword reverseProxy r).events = 0 ∧
      upstreamCalls (handler lib parseBasicAuth randomPassword reverseProxy r).events = []) := by
  refine ⟨fun hacc => handler_of_accepted lib _ _ _ _ hacc,
    handler_delegates_iff lib parseBasicAuth randomPassword joinURLPath network tokenSource
      targetUrl r, fun hrej => ?_⟩
  have h1 := handler_of_not_accepted lib parseBasicAuth randomPassword reverseProxy r hrej
  rw [h1]
  refine ⟨rfl, rfl, ?_, rfl, rfl, rfl⟩
  simp [httpError]

/-- Witness of C1: a request with the right user name and a wrong password is answered
with status 401 and causes no token request and no upstream call. -/
theorem C1_witness :
    (exRequest ["Basic YXJhOndyb25n"]).BasicAuth exParse = ("ara", "wrong", true) ∧
    (handler exLib exParse exSecret (newReverseProxy exJoin exOriginOK exTokenT1 exTarget)
      (exRequest ["Basic YXJhOndyb25n"])).val.Code = 401 ∧
    (handler exLib exParse exSecret (newReverseProxy exJoin exOriginOK exTokenT1 exTarget)
      (exRequest ["Basic YXJhOndyb25n"])).events = [] :=
  have h := (C1_gatekeeper exLib exParse exSecret
    (newReverseProxy exJoin exOriginOK exTokenT1 exTarget)
    (exRequest ["Basic YXJhOndyb25n"]) exJoin exOriginOK exTokenT1 exTarget).2.2 (by decide)
  ⟨by decide, h.2.1, h.2.2.2.1⟩

/-! ## The director -/

/-- C5: every request leaving the director has exactly one value of the header
`Authorization`, whatever the inbound request carried and whatever the credential source
returned: `Bearer ` followed by the token on success, exactly `Bearer ` when the credential
source failed or returned an empty token, and in these two cases an error is recorded on
the request. No inbound basic-auth value is left in the header. -/
theorem C5_director_authorization (originalDirector : Request → Effect Request)
    (tokenSource : TokenSource) (proxyTargetUrl : URL) (req : Request) :
    ((reverseProxyDirector originalDirector tokenSource proxyTargetUrl req).val.Header.Values
        "Authorization").length = 1 ∧
    (∀ t, tokenSource.Token = .ok t → t.AccessToken ≠ "" →
      (reverseProxyDirector originalDirector tokenSource proxyTargetUrl req).val.Header.Values
        "Authorization" = ["Bearer " ++ t.AccessToken]) ∧
    (∀ e, tokenSource.Token = .error e →
      (reverseProxyDirector originalDirector tokenSource proxyTargetUrl req).val.Header.Values
        "Authorization" = ["Bearer "] ∧
      (reverseProxyDirector originalDirector tokenSource proxyTargetUrl req).val.ctxError =
        some (errorfW "get token: " e)) ∧
    (∀ t, tokenSource.Token = .ok t → t.AccessToken = "" →
      (reverseProxyDirector originalDirector tokenSource proxyTargetUrl req).val.Header.Values
        "Authorization" = ["Bearer "] ∧
      (reverseProxyDirector originalDirector tokenSource proxyTargetUrl req).val.ctxError =
        some (.errorString "empty token")) ∧
    (∀ credential, "Basic " ++ credential ∉
      (reverseProxyDirector originalDirector tokenSource proxyTargetUrl req).val.Header.Values
        "Authorization") := by
  have hne : ∀ credential t : String, "Basic " ++ credential ≠ "Bearer " ++ t := by
    intro credential t h
    have := congrArg String.data h
    simp at this
  cases hts : tokenSource.Token with
  | error e =>
    simp only [reverseProxyDirector, hts, Header.Values, Header.Set, Request.withContextError]
    refine ⟨by simp, by simp, ?_, by simp, ?_⟩
    · intro e2 he
      cases he
      simp
    · intro credential
      simpa using hne credential ""
  | ok t =>
    simp only [reverseProxyDirector, hts, Header.Values, Header.Set, Request.withContextError]
    refine ⟨by simp, ?_, by simp, ?_, ?_⟩
    · intro t2 ht _
      cases ht
      simp
    · intro t2 ht hempty
      cases ht
      simp [hempty]
    · intro credential
      simpa using hne credential t.AccessToken

/-- Witness of C5: an inbound request with two values of `Authorization`, the basic-auth
value among them, leaves the director of a failing credential source with the single value
`Bearer ` and the error recorded. -/
theorem C5_witness :
    (reverseProxyDirector (NewSingleHostReverseProxy exJoin exOriginOK exTarget).Director
      exTokenFails exTarget (exRequest [exBasicValue, "Bearer stolen"])).val.Header.Values
      "Authorization" = ["Bearer "] ∧
    (reverseProxyDirector (NewSingleHostReverseProxy exJoin exOriginOK exTarget).Director
      exTokenFails exTarget (exRequest [exBasicValue, "Bearer stolen"])).val.ctxError =
      some (errorfW "get token: " (.errorString "credentials not found")) :=
  (C5_director_authorization (NewSingleHostReverseProxy exJoin exOriginOK exTarget).Director
    exTokenFails exTarget (exRequest [exBasicValue, "Bearer stolen"])).2.2.1 _ rfl

/-! ## The forwarder -/

/-- C2: for an accepted request, when the credential source returns an error or an empty
token the caller receives status 500 whatever the remote origin does: if the origin
answers, its answer is replaced by the text of the recorded error; if the transport
fails, by the text of the transport error; and if the proxy library refuses the request
before any round trip, by the text of its error. `out` is the request handed to the
transport. -/
theorem C2_token_failure_answers_500 (lib : ProxyLib)
    (parseBasicAuth : String → String × String × Bool)
    (randomPassword : String) (joinURLPath : URL → URL → String × String)
    (network : Request → Except GoError Reply) (tokenSource : TokenSource) (targetUrl : URL)
    (r : Request) (hacc : accepted parseBasicAuth randomPassword r)
    (hfail : (∃ e, tokenSource.Token = .error e) ∨
      (∃ t, tokenSource.Token = .ok t ∧ t.AccessToken = "")) :
    (handler lib parseBasicAuth randomPassword
      (newReverseProxy joinURLPath network tokenSource targetUrl) r).val.Code = 500 ∧
    (∀ e, tokenSource.Token = .error e → ∀ out up,
      (newReverseProxy joinURLPath network tokenSource targetUrl).outreq lib r = .ok out →
      network out = .ok up →
      (handler lib parseBasicAuth randomPassword
        (newReverseProxy joinURLPath network tokenSource targetUrl) r).val =
        httpError ("proxy error: get token: " ++ e.Error) 500) ∧
    (∀ t, tokenSource.Token = .ok t → t.AccessToken = "" → ∀ out up,
      (newReverseProxy joinURLPath network tokenSource targetUrl).outreq lib r = .ok out →
      network out = .ok up →
      (handler lib parseBasicAuth randomPassword
        (newReverseProxy joinURLPath network tokenSource targetUrl) r).val =
        httpError "proxy error: empty token" 500) ∧
    (∀ out err,
      (newReverseProxy joinURLPath network tokenSource targetUrl).outreq lib r = .ok out →
      network out = .error err →
      (handler lib parseBasicAuth randomPassword
        (newReverseProxy joinURLPath network tokenSource targetUrl) r).val =
        httpError err.Error 500) ∧
    (∀ err,
      (newReverseProxy joinURLPath network tokenSource targetUrl).outreq lib r = .error err →
      (handler lib parseBasicAuth randomPassword
        (newReverseProxy joinURLPath network tokenSource targetUrl) r).val =
        httpError err.Error 500) := by
  rw [handler_of_accepted lib _ _ _ _ hacc]
  have herr : ∀ e, tokenSource.Token = .error e → ∀ out up,
      (newReverseProxy joinURLPath network tokenSource targetUrl).outreq lib r = .ok out →
      network out = .ok up →
      ((newReverseProxy joinURLPath network tokenSource targetUrl).ServeHTTP lib r).val =
        httpError ("proxy error: get token: " ++ e.Error) 500 := by
    intro e he out up hout hup
    rw [proxy_answer_recorded lib _ _ _ _ _ out up _ hout hup
      (by rw [(proxy_outreq_cases lib _ _ _ _ _ out hout).2.1, proxy_director]
          exact director_ctx_of_error _ _ _ _ e he)]
    have : "proxy error: " ++ (errorfW "get token: " e).Error =
        "proxy error: get token: " ++ e.Error := by
      apply String.ext
      simp [errorfW, GoError.Error]
    rw [this]
    rfl
  have hemp : ∀ t, tokenSource.Token = .ok t → t.AccessToken = "" → ∀ out up,
      (newReverseProxy joinURLPath network tokenSource targetUrl).outreq lib r = .ok out →
      network out = .ok up →
      ((newReverseProxy joinURLPath network tokenSource targetUrl).ServeHTTP lib r).val =
        httpError "proxy error: empty token" 500 := by
    intro t ht hempty out up hout hup
    rw [proxy_answer_recorded lib _ _ _ _ _ out up _ hout hup
      (by rw [(proxy_outreq_cases lib _ _ _ _ _ out hout).2.1, proxy_director]
          exact director_ctx_of_empty _ _ _ _ t ht hempty)]
    rfl
  have htr : ∀ out err,
      (newReverseProxy joinURLPath network tokenSource targetUrl).outreq lib r = .ok out →
      network out = .error err →
      ((newReverseProxy joinURLPath network tokenSource targetUrl).ServeHTTP lib r).val =
        httpError err.Error 500 :=
    fun out err hout h => proxy_transport_error lib _ _ _ _ _ out err hout h
  have href : ∀ err,
      (newReverseProxy joinURLPath network tokenSource targetUrl).outreq lib r = .error err →
      ((newReverseProxy joinURLPath network tokenSource targetUrl).ServeHTTP lib r).val =
        httpError err.Error 500 := by
    intro err h
    rw [proxy_refused lib _ _ _ _ _ err h]
    rfl
  refine ⟨?_, herr, hemp, htr, href⟩
  cases hout : (newReverseProxy joinURLPath network tokenSource targetUrl).outreq lib r with
  | error err => rw [href err hout]; rfl
  | ok out =>
    cases hnet : network out with
    | error err => rw [htr out err hout hnet]; rfl
    | ok up =>
      rcases hfail with ⟨e, he⟩ | ⟨t, ht, hempty⟩
      · rw [herr e he out up hout hnet]; rfl
      · rw [hemp t ht hempty out up hout hnet]; rfl

/-- Witness of C2: the example session with a failing credential source and an origin that
answers 200. -/
theorem C2_witness :
    accepted exParse exSecret (exRequest [exBasicValue]) ∧
    (handler exLib exParse exSecret (newReverseProxy exJoin exOriginOK exTokenFails exTarget)
      (exRequest [exBasicValue])).val.Code = 500 :=
  ⟨ex_accepted,
    (C2_token_failure_answers_500 exLib exParse exSecret exJoin exOriginOK exTokenFails
      exTarget (exRequest [exBasicValue]) ex_accepted (Or.inl ⟨_, rfl⟩)).1⟩

/-- C7: for an accepted request whose call to the remote origin fails with a transport
error, the caller receives status 500 with the text of that error as the body (as
`http.Error` writes it, ended by a line feed), whatever the credential source returned.
`out` is the request handed to the transport. -/
theorem C7_transport_error_answers_500 (lib : ProxyLib)
    (parseBasicAuth : String → String × String × Bool)
    (randomPassword : String) (joinURLPath : URL → URL → String × String)
    (network : Request → Except GoError Reply) (tokenSource : TokenSource) (targetUrl : URL)
    (r out : Request) (e : GoError) (hacc : accepted parseBasicAuth randomPassword r)
    (hout : (newReverseProxy joinURLPath network tokenSource targetUrl).outreq lib r = .ok out)
    (htr : network out = .error e) :
    (handler lib parseBasicAuth randomPassword
      (newReverseProxy joinURLPath network tokenSource targetUrl) r).val =
      httpError e.Error StatusInternalServerError ∧
    (handler lib parseBasicAuth randomPassword
      (newReverseProxy joinURLPath network tokenSource targetUrl) r).val.Code = 500 ∧
    (handler lib parseBasicAuth randomPassword
      (newReverseProxy joinURLPath network tokenSource targetUrl) r).val.Body = e.Error ++ "\n" := by
  rw [handler_of_accepted lib _ _ _ _ hacc, proxy_transport_error lib _ _ _ _ _ out e hout htr]
  exact ⟨rfl, rfl, rfl⟩

/-- Witness of C7: the example session with the token `T1` and an origin that cannot be
reached. -/
theorem C7_witness :
    accepted exParse exSecret (exRequest [exBasicValue]) ∧
    (handler exLib exParse exSecret (newReverseProxy exJoin exOriginDown exTokenT1 exTarget)
      (exRequest [exBasicValue])).val.Body = "dial tcp: connection refused\n" :=
  have ⟨out, hout⟩ := ex_outreq exOriginDown exTokenT1
  ⟨ex_accepted,
    (C7_transport_error_answers_500 exLib exParse exSecret exJoin exOriginDown exTokenT1
      exTarget (exRequest [exBasicValue]) out (.errorString "dial tcp: connection refused")
      ex_accepted hout rfl).2.2⟩

/-! ## A failing credential source -/

/-- C6, as stated, fails: in the example session the credential source fails and the
remote origin cannot be reached; the accepted request is answered with status 500, but the
body is the transport error and does not contain `get token`. -/
theorem C6_counterexample :
    accepted exParse exSecret (exRequest [exBasicValue]) ∧
    exTokenFails.Token = .error (.errorString "credentials not found") ∧
    (handler exLib exParse exSecret (newReverseProxy exJoin exOriginDown exTokenFails exTarget)
      (exRequest [exBasicValue])).val =
      { Code := 500, Body := "dial tcp: connection refused\n" } ∧
    ¬ containsText (handler exLib exParse exSecret
      (newReverseProxy exJoin exOriginDown exTokenFails exTarget)
      (exRequest [exBasicValue])).val.Body "get token" := by
  have h : (handler exLib exParse exSecret
      (newReverseProxy exJoin exOriginDown exTokenFails exTarget)
      (exRequest [exBasicValue])).val =
      { Code := 500, Body := "dial tcp: connection refused\n" } := by
    obtain ⟨out, hout⟩ := ex_outreq exOriginDown exTokenFails
    rw [handler_of_accepted exLib _ _ _ _ ex_accepted,
      proxy_transport_error exLib exJoin exOriginDown exTokenFails exTarget _ out _ hout rfl]
    rfl
  refine ⟨ex_accepted, rfl, h, ?_⟩
  rw [h]
  unfold containsText
  decide

/-- C6, amended: when the credential source fails, every accepted request, whatever its
path, is answered with status 500; whenever the remote origin answers, the body is
`proxy error: get token: ` followed by the cause (and a line feed), so it contains
`get token`; when the transport itself fails, the body is the text of the transport
error. `out` is the request handed to the transport. -/
theorem C6_failure_body (lib : ProxyLib) (parseBasicAuth : String → String × String × Bool)
    (randomPassword : String) (joinURLPath : URL → URL → String × String)
    (network : Request → Except GoError Reply) (tokenSource : TokenSource) (targetUrl : URL)
    (r : Request) (e : GoError) (hacc : accepted parseBasicAuth randomPassword r)
    (hfail : tokenSource.Token = .error e) :
    (handler lib parseBasicAuth randomPassword
      (newReverseProxy joinURLPath network tokenSource targetUrl) r).val.Code = 500 ∧
    (∀ out up,
      (newReverseProxy joinURLPath network tokenSource targetUrl).outreq lib r = .ok out →
      network out = .ok up →
      (handler lib parseBasicAuth randomPassword
        (newReverseProxy joinURLPath network tokenSource targetUrl) r).val.Body =
        "proxy error: get token: " ++ e.Error ++ "\n" ∧
      containsText (handler lib parseBasicAuth randomPassword
        (newReverseProxy joinURLPath network tokenSource targetUrl) r).val.Body "get token") ∧
    (∀ out err,
      (newReverseProxy joinURLPath network tokenSource targetUrl).outreq lib r = .ok out →
      network out = .error err →
      (handler lib parseBasicAuth randomPassword
        (newReverseProxy joinURLPath network tokenSource targetUrl) r).val.Body =
        err.Error ++ "\n") := by
  have hdir :
      ((newReverseProxy joinURLPath network tokenSource targetUrl).Director r).val.ctxError =
        some (errorfW "get token: " e) := by
    rw [proxy_director]; exact director_ctx_of_error _ _ _ _ e hfail
  have hrec : ∀ out,
      (newReverseProxy joinURLPath network tokenSource targetUrl).outreq lib r = .ok out →
      out.ctxError = some (errorfW "get token: " e) :=
    fun out hout => (proxy_outreq_cases lib _ _ _ _ _ out hout).2.1.trans hdir
  rw [handler_of_accepted lib _ _ _ _ hacc]
  have hbody : ∀ out up,
      (newReverseProxy joinURLPath network tokenSource targetUrl).outreq lib r = .ok out →
      network out = .ok up →
      ((newReverseProxy joinURLPath network tokenSource targetUrl).ServeHTTP lib r).val.Body =
        "proxy error: get token: " ++ e.Error ++ "\n" := by
    intro out up hout hup
    rw [proxy_answer_recorded lib _ _ _ _ _ out up _ hout hup (hrec out hout), httpError_body]
    apply String.ext
    simp [errorfW, GoError.Error]
  refine ⟨?_, ?_, ?_⟩
  · cases hout : (newReverseProxy joinURLPath network tokenSource targetUrl).outreq lib r with
    | error err => rw [proxy_refused lib _ _ _ _ _ err hout]; rfl
    | ok out =>
      cases hnet : network out with
      | error err => rw [proxy_transport_error lib _ _ _ _ _ out err hout hnet]; rfl
      | ok up => rw [proxy_answer_recorded lib _ _ _ _ _ out up _ hout hnet (hrec out hout)]; rfl
  · intro out up hout hup
    refine ⟨hbody out up hout hup, ?_⟩
    rw [hbody out up hout hup]
    have : "proxy error: get token: " ++ e.Error ++ "\n" =
        "proxy error: " ++ "get token" ++ (": " ++ e.Error ++ "\n") := by
      apply String.ext
      simp
    rw [this]
    exact contains_get_token _ _
  · intro out err hout herr
    rw [proxy_transport_error lib _ _ _ _ _ out err hout herr]
    rfl

/-- Witness of the amended C6: the example session with a failing credential source and an
origin that answers 200. -/
theorem C6_witness :
    accepted exParse exSecret (exRequest [exBasicValue]) ∧
    (handler exLib exParse exSecret (newReverseProxy exJoin exOriginOK exTokenFails exTarget)
      (exRequest [exBasicValue])).val.Body =
      "proxy error: get token: " ++ "credentials not found" ++ "\n" :=
  have ⟨out, hout⟩ := ex_outreq exOriginOK exTokenFails
  ⟨ex_accepted,
    ((C6_failure_body exLib exParse exSecret exJoin exOriginOK exTokenFails exTarget
      (exRequest [exBasicValue]) (.errorString "credentials not found") ex_accepted rfl).2.1
      out _ hout rfl).1⟩

/-! ## The orchestrator -/

/-- C8: the child is spawned only after the self-test has completed with status 200. If
the child is run at all, the steps of `run` were: serve, then the self-test `GET` of
`http://<listener address>/api/` carrying the basic-auth header for `ara` and the shared
secret, answered with status 200, then the child. For every self-test result that is a
request error or a status other than 200, `run` returns an error and no child is run. -/
theorem C8_child_after_self_test (w : World) (cloudRunUrl impersonateServiceAccount : String)
    (args : List String) :
    (∀ name arg env o,
      RunEvent.spawn name arg env o ∈ (run w cloudRunUrl impersonateServiceAccount args).trace →
      ∃ addr bytes targetUrl tokenSource req reply,
        w.Listen = .ok addr ∧ w.randRead = .ok bytes ∧
        (run w cloudRunUrl impersonateServiceAccount args).trace =
          [RunEvent.serve addr (sprintfHex bytes.val) targetUrl tokenSource,
           RunEvent.selfTest ("http://" ++ addr ++ "/api/") req (.ok reply),
           RunEvent.spawn name arg env o] ∧
        req.Method = "GET" ∧
        req.Header.Values "Authorization" =
          ["Basic " ++ w.basicAuth "ara" (sprintfHex bytes.val)] ∧
        w.clientDo req = .ok reply ∧ reply.Code = 200) ∧
    (∀ url req res,
      RunEvent.selfTest url req res ∈ (run w cloudRunUrl impersonateServiceAccount args).trace →
      ((∃ err, res = .error err) ∨ (∃ reply, res = .ok reply ∧ reply.Code ≠ 200)) →
      (∃ err, (run w cloudRunUrl impersonateServiceAccount args).outcome = .failed err) ∧
      ∀ name arg env o,
        RunEvent.spawn name arg env o ∉
          (run w cloudRunUrl impersonateServiceAccount args).trace) := by
  rcases run_shape w cloudRunUrl impersonateServiceAccount args with
    ⟨tr, err, h, _, hns, _, _⟩ |
    ⟨addr, bytes, targetUrl, tokenSource, req, resp, hp, hN, hD, hc, h⟩
  · rw [h]
    exact ⟨fun name arg env o hmem => absurd hmem (hns name arg env o),
      fun _ _ _ _ _ => ⟨⟨err, rfl⟩, hns⟩⟩
  · have hok : ∀ url req2 res,
        RunEvent.selfTest url req2 res ∈
          [RunEvent.serve addr (sprintfHex bytes.val) targetUrl tokenSource,
            RunEvent.selfTest ("http://" ++ addr ++ "/api/")
              (req.SetBasicAuth w "ara" (sprintfHex bytes.val)) (.ok resp)] →
        ¬ ((∃ err, res = .error err) ∨ (∃ reply, res = .ok reply ∧ reply.Code ≠ 200)) := by
      intro url req2 res hmem hres
      simp at hmem
      rcases hmem with ⟨_, _, hresv⟩
      subst hresv
      rcases hres with ⟨e, he⟩ | ⟨reply, hr, hne⟩
      · cases he
      · cases hr
        exact hne hc
    rw [h]
    rcases runChild_cases w [RunEvent.serve addr (sprintfHex bytes.val) targetUrl tokenSource,
        RunEvent.selfTest ("http://" ++ addr ++ "/api/")
          (req.SetBasicAuth w "ara" (sprintfHex bytes.val)) (.ok resp)]
        (fourEntries addr (sprintfHex bytes.val)) args with
      ⟨_, h2⟩ | ⟨name, arg, _, ⟨text, _, h2⟩ | ⟨_, _, h2⟩ | ⟨_, _, h2⟩⟩
    · rw [h2]
      exact ⟨by simp, fun url req2 res hmem hres => absurd hres (hok url req2 res hmem)⟩
    · rw [h2]
      exact ⟨by simp, fun url req2 res hmem hres => absurd hres (hok url req2 res hmem)⟩
    · rw [h2]
      exact ⟨by simp, fun url req2 res hmem hres => absurd hres (hok url req2 res hmem)⟩
    · rw [h2]
      constructor
      · intro name2 arg2 env2 o2 hmem
        simp at hmem
        rcases hmem with ⟨e1, e2, e3, e4⟩
        subst e1 e2 e3 e4
        refine ⟨addr, bytes, targetUrl, tokenSource, _, resp, hp.1, hp.2.1, rfl, ?_, ?_, hD, hc⟩
        · exact (newRequest_fields w _ _ req hN).1
        · simp [Request.SetBasicAuth, Header.Values, Header.Set]
      · intro url req2 res hmem hres
        refine absurd hres (hok url req2 res ?_)
        simp at hmem
        simp [hmem]

/-- Witness of C8: in the example session, whose origin answers 200, the three steps happen
in this order; in the same session with a failing credential source the bridge answers its
own self-test with status 500, and `run` returns an error without running the child. -/
theorem C8_witness :
    (∃ addr bytes targetUrl tokenSource req reply,
      (exWorld exOriginOK exTokenT1 ["PATH=/usr/bin"] (.exited 0)).Listen = .ok addr ∧
      (exWorld exOriginOK exTokenT1 ["PATH=/usr/bin"] (.exited 0)).randRead = .ok bytes ∧
      (run (exWorld exOriginOK exTokenT1 ["PATH=/usr/bin"] (.exited 0))
        "https://api.example.com" "" ["ansible-playbook", "site.yml"]).trace =
        [RunEvent.serve addr (sprintfHex bytes.val) targetUrl tokenSource,
         RunEvent.selfTest ("http://" ++ addr ++ "/api/") req (.ok reply),
         RunEvent.spawn "ansible-playbook" ["site.yml"]
           ["PATH=/usr/bin", "ARA_API_CLIENT=http", "ARA_API_SERVER=http://127.0.0.1:40000",
             "ARA_API_USERNAME=ara", "ARA_API_PASSWORD=00000000000000000000000000000000"]
           (.exited 0)] ∧
      req.Method = "GET" ∧
      req.Header.Values "Authorization" =
        ["Basic " ++ (exWorld exOriginOK exTokenT1 ["PATH=/usr/bin"] (.exited 0)).basicAuth "ara"
          (sprintfHex bytes.val)] ∧
      (exWorld exOriginOK exTokenT1 ["PATH=/usr/bin"] (.exited 0)).clientDo req = .ok reply ∧
      reply.Code = 200) ∧
    ((∃ err, (run (exWorld exOriginOK exTokenFails ["PATH=/usr/bin"] (.exited 0))
        "https://api.example.com" "" ["ansible-playbook", "site.yml"]).outcome = .failed err) ∧
      ∀ name arg env o, RunEvent.spawn name arg env o ∉
        (run (exWorld exOriginOK exTokenFails ["PATH=/usr/bin"] (.exited 0))
          "https://api.example.com" "" ["ansible-playbook", "site.yml"]).trace) :=
  ⟨(C8_child_after_self_test (exWorld exOriginOK exTokenT1 ["PATH=/usr/bin"] (.exited 0))
      "https://api.example.com" "" ["ansible-playbook", "site.yml"]).1
      "ansible-playbook" ["site.yml"]
      ["PATH=/usr/bin", "ARA_API_CLIENT=http", "ARA_API_SERVER=http://127.0.0.1:40000",
        "ARA_API_USERNAME=ara", "ARA_API_PASSWORD=00000000000000000000000000000000"]
      (.exited 0) (List.Mem.tail _ (List.Mem.tail _ (List.Mem.head _))),
    (C8_child_after_self_test (exWorld exOriginOK exTokenFails ["PATH=/usr/bin"] (.exited 0))
      "https://api.example.com" "" ["ansible-playbook", "site.yml"]).2 _ _ _
      (List.Mem.tail _ (List.Mem.head _))
      (Or.inr ⟨{ Code := 500, Body := "proxy error: get token: credentials not found\n" },
        rfl, by decide⟩)⟩

/-- C9, as stated, fails: in the example session the child is started and is ended by a
signal. This is a failure of `run` (it returns the `*exec.ExitError` of the child, whose
exit code is -1) that is not an exit of the child with a code, yet nothing is printed to
standard error and the exit status is 255, not 1. -/
theorem C9_counterexample :
    (run (exWorld exOriginOK exTokenT1 ["PATH=/usr/bin"] (.signaled "signal: killed"))
      "https://api.example.com" "" ["ansible-playbook", "site.yml"]).outcome =
      .failed (.exitError (-1) "signal: killed") ∧
    (∀ name arg env c, RunEvent.spawn name arg env (.exited c) ∉
      (run (exWorld exOriginOK exTokenT1 ["PATH=/usr/bin"] (.signaled "signal: killed"))
        "https://api.example.com" "" ["ansible-playbook", "site.yml"]).trace) ∧
    Run (exWorld exOriginOK exTokenT1 ["PATH=/usr/bin"] (.signaled "signal: killed"))
      "https://api.example.com" "" ["ansible-playbook", "site.yml"] =
      { stderr := [], exitCode := 255 } := by
  refine ⟨rfl, ?_, rfl⟩
  intro name arg env c hmem
  have htr : (run (exWorld exOriginOK exTokenT1 ["PATH=/usr/bin"] (.signaled "signal: killed"))
      "https://api.example.com" "" ["ansible-playbook", "site.yml"]).trace =
      [RunEvent.serve "127.0.0.1:40000" exSecret exTarget exTokenT1,
        RunEvent.selfTest "http://127.0.0.1:40000/api/" _ _,
        RunEvent.spawn "ansible-playbook" ["site.yml"] _ (.signaled "signal: killed")] := rfl
  rw [htr] at hmem
  simp at hmem

/-- C9, amended: the exit status mirrors the child. The command line is `name` followed by
`arg`. When a step before the child fails (listener, random source, missing or unparseable
remote origin, construction of the credential source, self-test) `run` returns an error,
its text and a line feed are printed to standard error and the exit status is 1. When all
these steps succeed: a child that cannot be started (the command is not found, an entry of
`cmd.Env` has a NUL character, or the operating system refuses) has the error printed and
gives exit status 1; a child that is started with the environment `os/exec` makes of
`cmd.Env` and exits with code `c` gives exit status `c`, nothing printed (0 when it
succeeds, 1 for `/bin/false`); a child that is ended by a signal gives exit status 255,
nothing printed. Exit status 0 is reached only by a child that exited with 0. -/
theorem C9_exit_status (w : World) (cloudRunUrl impersonateServiceAccount : String)
    (name : String) (arg : List String) :
    ((∀ addr bytes, ¬ SelfTestPasses w cloudRunUrl impersonateServiceAccount addr bytes) →
      ∃ err, (run w cloudRunUrl impersonateServiceAccount (name :: arg)).outcome = .failed err ∧
        Run w cloudRunUrl impersonateServiceAccount (name :: arg) =
          { stderr := [err.Error ++ "\n"], exitCode := 1 }) ∧
    (∀ addr bytes, SelfTestPasses w cloudRunUrl impersonateServiceAccount addr bytes →
      (∀ text, w.commandErr name = some text →
        Run w cloudRunUrl impersonateServiceAccount (name :: arg) =
          { stderr := [text ++ "\n"], exitCode := 1 }) ∧
      (w.commandErr name = none →
        (w.Environ ++ fourEntries addr (sprintfHex bytes.val)).any hasNUL = true →
        Run w cloudRunUrl impersonateServiceAccount (name :: arg) =
          { stderr := ["exec: environment variable contains NUL\n"], exitCode := 1 }) ∧
      (w.commandErr name = none →
        (w.Environ ++ fourEntries addr (sprintfHex bytes.val)).any hasNUL = false →
        (∀ c : Fin 256,
          w.child name arg (dedupEnv (w.Environ ++ fourEntries addr (sprintfHex bytes.val))).1 =
            .exited c →
          Run w cloudRunUrl impersonateServiceAccount (name :: arg) =
            { stderr := [], exitCode := c.val }) ∧
        (∀ text,
          w.child name arg (dedupEnv (w.Environ ++ fourEntries addr (sprintfHex bytes.val))).1 =
            .signaled text →
          Run w cloudRunUrl impersonateServiceAccount (name :: arg) =
            { stderr := [], exitCode := 255 }) ∧
        (∀ text,
          w.child name arg (dedupEnv (w.Environ ++ fourEntries addr (sprintfHex bytes.val))).1 =
            .startFailed text →
          Run w cloudRunUrl impersonateServiceAccount (name :: arg) =
            { stderr := [text ++ "\n"], exitCode := 1 }))) ∧
    ((Run w cloudRunUrl impersonateServiceAccount (name :: arg)).exitCode = 0 →
      ∃ addr bytes, SelfTestPasses w cloudRunUrl impersonateServiceAccount addr bytes ∧
        w.commandErr name = none ∧
        w.child name arg (dedupEnv (w.Environ ++ fourEntries addr (sprintfHex bytes.val))).1 =
          .exited 0) := by
  have hstarted : ∀ addr bytes,
      SelfTestPasses w cloudRunUrl impersonateServiceAccount addr bytes →
      (∀ text, w.commandErr name = some text →
        Run w cloudRunUrl impersonateServiceAccount (name :: arg) =
          { stderr := [text ++ "\n"], exitCode := 1 }) ∧
      (w.commandErr name = none →
        (w.Environ ++ fourEntries addr (sprintfHex bytes.val)).any hasNUL = true →
        Run w cloudRunUrl impersonateServiceAccount (name :: arg) =
          { stderr := ["exec: environment variable contains NUL\n"], exitCode := 1 }) := by
    intro addr bytes hp
    constructor
    · intro text hc
      obtain ⟨tr, hrun, _⟩ := run_child_not_found w cloudRunUrl impersonateServiceAccount addr
        bytes name arg text hp hc
      exact Run_of_error w _ _ _ tr _ hrun rfl
    · intro hc hn
      obtain ⟨tr, hrun, _⟩ := run_child_nul w cloudRunUrl impersonateServiceAccount addr
        bytes name arg hp hc hn
      exact Run_of_error w _ _ _ tr _ hrun rfl
  refine ⟨?_, ?_, ?_⟩
  · intro hno
    rcases run_shape w cloudRunUrl impersonateServiceAccount (name :: arg) with
      ⟨tr, err, h, he, _⟩ | ⟨addr, bytes, _, _, _, _, hp, _⟩
    · refine ⟨err, ?_, Run_of_error w _ _ _ tr err h he⟩
      rw [h]
    · exact absurd hp (hno addr bytes)
  · intro addr bytes hp
    refine ⟨(hstarted addr bytes hp).1, (hstarted addr bytes hp).2, ?_⟩
    intro hc hn
    have hrun := Run_of_child w cloudRunUrl impersonateServiceAccount addr bytes name arg hp hc hn
    refine ⟨?_, ?_, ?_⟩
    · intro c hchild
      rw [hrun, hchild]
    · intro text hchild
      rw [hrun, hchild]
    · intro text hchild
      rw [hrun, hchild]
  · intro hzero
    rcases run_shape w cloudRunUrl impersonateServiceAccount (name :: arg) with
      ⟨tr, err, h, he, _⟩ | ⟨addr, bytes, _, _, _, _, hp, _⟩
    · rw [Run_of_error w _ _ _ tr err h he] at hzero
      cases hzero
    · cases hc : w.commandErr name with
      | some text =>
        rw [(hstarted addr bytes hp).1 text hc] at hzero
        cases hzero
      | none =>
        cases hn : (w.Environ ++ fourEntries addr (sprintfHex bytes.val)).any hasNUL with
        | true =>
          rw [(hstarted addr bytes hp).2 hc hn] at hzero
          cases hzero
        | false =>
          refine ⟨addr, bytes, hp, rfl, ?_⟩
          rw [Run_of_child w cloudRunUrl impersonateServiceAccount addr bytes name arg hp hc hn]
            at hzero
          cases hchild : w.child name arg
              (dedupEnv (w.Environ ++ fourEntries addr (sprintfHex bytes.val))).1 with
          | exited c =>
            rw [hchild] at hzero
            simp only at hzero
            congr 1
            exact Fin.ext hzero
          | signaled text =>
            rw [hchild] at hzero
            cases hzero
          | startFailed text =>
            rw [hchild] at hzero
            cases hzero

/-- Witness of the amended C9: in the example session a child that exits with 7 gives exit
status 7 and the child `/bin/false` gives 1, nothing printed; a child ended by a signal
gives 255; a command that is not found and a listener that cannot be bound have the error
printed and give 1. -/
theorem C9_witness :
    Run (exWorld exOriginOK exTokenT1 ["PATH=/usr/bin"] (.exited 7))
      "https://api.example.com" "" ["ansible-playbook", "site.yml"] =
      { stderr := [], exitCode := 7 } ∧
    Run (exWorld exOriginOK exTokenT1 ["PATH=/usr/bin"] (.exited 1))
      "https://api.example.com" "" ["/bin/false"] = { stderr := [], exitCode := 1 } ∧
    Run (exWorld exOriginOK exTokenT1 ["PATH=/usr/bin"] (.signaled "signal: killed"))
      "https://api.example.com" "" ["ansible-playbook", "site.yml"] =
      { stderr := [], exitCode := 255 } ∧
    Run { exWorld exOriginOK exTokenT1 ["PATH=/usr/bin"] (.exited 0) with
        commandErr := fun _ => some "exec: \"ansible-playbok\": executable file not found in $PATH" }
      "https://api.example.com" "" ["ansible-playbok", "site.yml"] =
      { stderr := ["exec: \"ansible-playbok\": executable file not found in $PATH\n"]
        exitCode := 1 } ∧
    (∃ err,
      (run { exWorld exOriginOK exTokenT1 ["PATH=/usr/bin"] (.exited 0) with
          Listen := .error (.errorString "listen tcp 127.0.0.1:0: bind: no ports") }
        "https://api.example.com" "" ["/bin/true"]).outcome = .failed err ∧
      Run { exWorld exOriginOK exTokenT1 ["PATH=/usr/bin"] (.exited 0) with
          Listen := .error (.errorString "listen tcp 127.0.0.1:0: bind: no ports") }
        "https://api.example.com" "" ["/bin/true"] =
        { stderr := [err.Error ++ "\n"], exitCode := 1 }) :=
  ⟨(((C9_exit_status (exWorld exOriginOK exTokenT1 ["PATH=/usr/bin"] (.exited 7))
      "https://api.example.com" "" "ansible-playbook" ["site.yml"]).2.1 _ _
      (ex_selfTestPasses _ _)).2.2 rfl (by decide)).1 7 rfl,
    (((C9_exit_status (exWorld exOriginOK exTokenT1 ["PATH=/usr/bin"] (.exited 1))
      "https://api.example.com" "" "/bin/false" []).2.1 _ _
      (ex_selfTestPasses _ _)).2.2 rfl (by decide)).1 1 rfl,
    (((C9_exit_status (exWorld exOriginOK exTokenT1 ["PATH=/usr/bin"] (.signaled "signal: killed"))
      "https://api.example.com" "" "ansible-playbook" ["site.yml"]).2.1 _ _
      (ex_selfTestPasses _ _)).2.2 rfl (by decide)).2.1 _ rfl,
    ((C9_exit_status { exWorld exOriginOK exTokenT1 ["PATH=/usr/bin"] (.exited 0) with
        commandErr := fun _ => some "exec: \"ansible-playbok\": executable file not found in $PATH" }
      "https://api.example.com" "" "ansible-playbok" ["site.yml"]).2.1
      "127.0.0.1:40000" ⟨List.replicate 16 0, rfl⟩
      ⟨rfl, rfl, by unfold resolvedUrl; rw [if_neg (by decide)]; decide,
        exTarget, exTokenT1, _, _, rfl, rfl, rfl, rfl, rfl⟩).1 _ rfl,
    (C9_exit_status { exWorld exOriginOK exTokenT1 ["PATH=/usr/bin"] (.exited 0) with
        Listen := .error (.errorString "listen tcp 127.0.0.1:0: bind: no ports") }
      "https://api.example.com" "" "/bin/true" []).1
      (fun _ _ hp => Except.noConfusion hp.1)⟩

/-- C10, as stated, fails twice. In the example session the inherited environment holds
`ARA_API_USERNAME=bob`, and the origin answers the health-check path with 200 and asks
every other path for a login of its own. The child is run, and its environment is not the
inherited environment followed by the four entries: `os/exec` keeps the last entry of each
name, so the inherited `ARA_API_USERNAME=bob` is not given to the child. And a request built
from the published user name and password is answered with status 401, the origin's own
answer passed through. -/
theorem C10_counterexample :
    (exWorld exOriginLogin exTokenT1 ["PATH=/usr/bin", "ARA_API_USERNAME=bob"]
      (.exited 0)).Environ = ["PATH=/usr/bin", "ARA_API_USERNAME=bob"] ∧
    RunEvent.spawn "ansible-playbook" ["site.yml"]
      ["PATH=/usr/bin", "ARA_API_CLIENT=http", "ARA_API_SERVER=http://127.0.0.1:40000",
        "ARA_API_USERNAME=ara", "ARA_API_PASSWORD=00000000000000000000000000000000"]
      (.exited 0) ∈
      (run (exWorld exOriginLogin exTokenT1 ["PATH=/usr/bin", "ARA_API_USERNAME=bob"]
        (.exited 0)) "https://api.example.com" "" ["ansible-playbook", "site.yml"]).trace ∧
    ["PATH=/usr/bin", "ARA_API_CLIENT=http", "ARA_API_SERVER=http://127.0.0.1:40000",
        "ARA_API_USERNAME=ara", "ARA_API_PASSWORD=00000000000000000000000000000000"] ≠
      ["PATH=/usr/bin", "ARA_API_USERNAME=bob"] ++
        fourEntries "127.0.0.1:40000" "00000000000000000000000000000000" ∧
    (exRequest [exBasicValue]).BasicAuth exParse =
      ("ara", "00000000000000000000000000000000", true) ∧
    (servedHandler (exWorld exOriginLogin exTokenT1 ["PATH=/usr/bin", "ARA_API_USERNAME=bob"]
      (.exited 0)) "00000000000000000000000000000000" exTarget exTokenT1
      (exRequest [exBasicValue])).val = { Code := 401, Body := "login required" } := by
  refine ⟨rfl, List.Mem.tail _ (List.Mem.tail _ (List.Mem.head _)), by decide, by decide, ?_⟩
  rfl

/-- C10, amended. Whenever the child is run, the environment it is given is what `os/exec`
makes of `cmd.Env`, the inherited environment followed by the four entries: its last
entries are exactly `ARA_API_CLIENT=http`, `ARA_API_SERVER=http://` and the listener
address, `ARA_API_USERNAME=ara`, `ARA_API_PASSWORD=` and the shared secret, and before them
come, in their order, inherited entries only, none of them under one of the four names,
and every other inherited name is still there (the whole inherited environment when it is
clean: no empty entry, no entry under one of the four names, no name twice). The child ends as the operating system says for this
environment. The shared secret is the lowercase hexadecimal text of the 16 random bytes, 32
characters long. The handler being served delegates a request to the reverse proxy exactly
when its basic-auth pair is the published pair, and such a request is answered with 401
only when the remote origin was sent the request and answered it with 401, which is passed
through unchanged. Conversely, when every step before the child succeeds, the command is
found and no entry of `cmd.Env` has a NUL character, the child is run. -/
theorem C10_child_environment (w : World) (cloudRunUrl impersonateServiceAccount : String)
    (args : List String) :
    (∀ name arg env o,
      RunEvent.spawn name arg env o ∈ (run w cloudRunUrl impersonateServiceAccount args).trace →
      ∃ addr bytes targetUrl tokenSource rest,
        w.Listen = .ok addr ∧ w.randRead = .ok bytes ∧
        RunEvent.serve addr (sprintfHex bytes.val) targetUrl tokenSource ∈
          (run w cloudRunUrl impersonateServiceAccount args).trace ∧
        args = name :: arg ∧
        env = (dedupEnv (w.Environ ++ ["ARA_API_CLIENT=http", "ARA_API_SERVER=http://" ++ addr,
          "ARA_API_USERNAME=ara", "ARA_API_PASSWORD=" ++ sprintfHex bytes.val])).1 ∧
        env = rest ++ ["ARA_API_CLIENT=http", "ARA_API_SERVER=http://" ++ addr,
          "ARA_API_USERNAME=ara", "ARA_API_PASSWORD=" ++ sprintfHex bytes.val] ∧
        rest.Sublist w.Environ ∧
        (∀ kv ∈ rest, ∀ k, envKey kv = some k → k ∉ fourNames) ∧
        (∀ kv ∈ w.Environ, ∀ k, envKey kv = some k → k ∉ fourNames →
          ∃ kv2 ∈ rest, envKey kv2 = some k) ∧
        (CleanEnviron w.Environ → rest = w.Environ) ∧
        o = w.child name arg env ∧
        (sprintfHex bytes.val).length = 32 ∧
        (∀ c ∈ (sprintfHex bytes.val).data, c ∈ "0123456789abcdef".data) ∧
        hexDecode (sprintfHex bytes.val).data = bytes.val.map (fun b => b.val) ∧
        (∀ r : Request,
          (servedHandler w (sprintfHex bytes.val) targetUrl tokenSource r =
            (newReverseProxy w.joinURLPath w.network tokenSource targetUrl).ServeHTTP
              w.proxyLib r ↔
            ((r.BasicAuth w.parseBasicAuth).2.2 = true ∧
              (r.BasicAuth w.parseBasicAuth).1 = "ara" ∧
              (r.BasicAuth w.parseBasicAuth).2.1 = sprintfHex bytes.val))) ∧
        (∀ r : Request,
          (r.BasicAuth w.parseBasicAuth).2.2 = true →
          (r.BasicAuth w.parseBasicAuth).1 = "ara" →
          (r.BasicAuth w.parseBasicAuth).2.1 = sprintfHex bytes.val →
          (servedHandler w (sprintfHex bytes.val) targetUrl tokenSource r).val.Code = 401 →
          ∃ out up,
            (newReverseProxy w.joinURLPath w.network tokenSource targetUrl).outreq
              w.proxyLib r = .ok out ∧
            w.network out = .ok up ∧ up.Code = 401 ∧
            (servedHandler w (sprintfHex bytes.val) targetUrl tokenSource r).val = up)) ∧
    (∀ (addr : String) (bytes : { b : List (Fin 256) // b.length = 16 }) (name : String)
        (arg : List String),
      args = name :: arg →
      SelfTestPasses w cloudRunUrl impersonateServiceAccount addr bytes →
      w.commandErr name = none →
      (w.Environ ++ ["ARA_API_CLIENT=http", "ARA_API_SERVER=http://" ++ addr,
        "ARA_API_USERNAME=ara", "ARA_API_PASSWORD=" ++ sprintfHex bytes.val]).any hasNUL = false →
      RunEvent.spawn name arg
        (dedupEnv (w.Environ ++ ["ARA_API_CLIENT=http", "ARA_API_SERVER=http://" ++ addr,
          "ARA_API_USERNAME=ara", "ARA_API_PASSWORD=" ++ sprintfHex bytes.val])).1
        (w.child name arg
          (dedupEnv (w.Environ ++ ["ARA_API_CLIENT=http", "ARA_API_SERVER=http://" ++ addr,
            "ARA_API_USERNAME=ara", "ARA_API_PASSWORD=" ++ sprintfHex bytes.val])).1) ∈
        (run w cloudRunUrl impersonateServiceAccount args).trace) := by
  constructor
  · intro name arg env o h
    rcases run_shape w cloudRunUrl impersonateServiceAccount args with
      ⟨tr, err, h2, _, hns, _, _⟩ |
      ⟨addr, bytes, targetUrl, tokenSource, req, resp, hp, hN, hD, hc, h2⟩
    · rw [h2] at h
      exact absurd h (hns name arg env o)
    · rw [h2] at h ⊢
      rcases runChild_cases w [RunEvent.serve addr (sprintfHex bytes.val) targetUrl tokenSource,
          RunEvent.selfTest ("http://" ++ addr ++ "/api/")
            (req.SetBasicAuth w "ara" (sprintfHex bytes.val)) (.ok resp)]
          (fourEntries addr (sprintfHex bytes.val)) args with
        ⟨_, h3⟩ | ⟨n, a, hargs, ⟨text, _, h3⟩ | ⟨_, _, h3⟩ | ⟨_, hn, h3⟩⟩
      · rw [h3] at h; simp at h
      · rw [h3] at h; simp at h
      · rw [h3] at h; simp at h
      · rw [h3] at h ⊢
        simp at h
        rcases h with ⟨e1, e2, e3, e4⟩
        subst e1 e2
        have hnul := hasNUL_four w.Environ addr (sprintfHex bytes.val) hn
        have hfour := dedupEnv_four w.Environ addr (sprintfHex bytes.val) hnul.1 hnul.2
        refine ⟨addr, bytes, targetUrl, tokenSource,
          (dedupFromEnd fourNames w.Environ.reverse).reverse, hp.1, hp.2.1, by simp, hargs,
          e3, e3.trans hfour, dedup_rest_sublist _, dedup_rest_keys _, ?_, dedup_rest_clean _,
          ?_, ?_, ?_, ?_, ?_, ?_⟩
        · intro kv hkv k hk hk4
          exact dedup_rest_complete w.Environ kv k hkv
            (dedupEnv_nul _ hn kv (List.mem_append_left _ hkv)) hk hk4
        · rw [e4, e3]
        · simp [sprintfHex, hexChars_length, bytes.property]
        · exact hexChars_mem bytes.val
        · exact hexDecode_hexChars bytes.val
        · intro r
          exact handler_delegates_iff _ _ _ _ _ _ _ r
        · intro r h1 h2 h3 h401
          have hacc : accepted w.parseBasicAuth (sprintfHex bytes.val) r := ⟨h1, h2, h3⟩
          unfold servedHandler at h401 ⊢
          rw [handler_of_accepted w.proxyLib _ _ _ _ hacc] at h401 ⊢
          exact proxy_unauthorized w.proxyLib _ _ _ _ r h401
  · intro addr bytes name arg hargs hp hc hn
    subst hargs
    obtain ⟨tr, hrun⟩ := run_child_started w cloudRunUrl impersonateServiceAccount addr bytes
      name arg hp hc hn
    rw [hrun]
    simp [fourEntries]

/-- Witness of the amended C10: the example session with an inherited `ARA_API_USERNAME`;
the child is run, the entries before the four entries are inherited ones, none under one
of the four names, and the shared secret has 32 characters. -/
theorem C10_witness :
    RunEvent.spawn "ansible-playbook" ["site.yml"]
      ["PATH=/usr/bin", "ARA_API_CLIENT=http", "ARA_API_SERVER=http://127.0.0.1:40000",
        "ARA_API_USERNAME=ara", "ARA_API_PASSWORD=00000000000000000000000000000000"]
      (.exited 0) ∈
      (run (exWorld exOriginOK exTokenT1 ["PATH=/usr/bin", "ARA_API_USERNAME=bob"] (.exited 0))
        "https://api.example.com" "" ["ansible-playbook", "site.yml"]).trace ∧
    ∃ (addr : String) (bytes : { b : List (Fin 256) // b.length = 16 }) (rest : List String),
      (exWorld exOriginOK exTokenT1 ["PATH=/usr/bin", "ARA_API_USERNAME=bob"]
        (.exited 0)).Listen = .ok addr ∧
      ["PATH=/usr/bin", "ARA_API_CLIENT=http", "ARA_API_SERVER=http://127.0.0.1:40000",
        "ARA_API_USERNAME=ara", "ARA_API_PASSWORD=00000000000000000000000000000000"] =
        rest ++ ["ARA_API_CLIENT=http", "ARA_API_SERVER=http://" ++ addr,
          "ARA_API_USERNAME=ara", "ARA_API_PASSWORD=" ++ sprintfHex bytes.val] ∧
      rest.Sublist ["PATH=/usr/bin", "ARA_API_USERNAME=bob"] ∧
      (∀ kv ∈ rest, ∀ k, envKey kv = some k → k ∉ fourNames) ∧
      (sprintfHex bytes.val).length = 32 :=
  have hmem := (C10_child_environment
    (exWorld exOriginOK exTokenT1 ["PATH=/usr/bin", "ARA_API_USERNAME=bob"] (.exited 0))
    "https://api.example.com" "" ["ansible-playbook", "site.yml"]).2
    "127.0.0.1:40000" ⟨List.replicate 16 0, rfl⟩ "ansible-playbook" ["site.yml"] rfl
    (ex_selfTestPasses _ _) rfl (by decide)
  have ⟨addr, bytes, _, _, rest, hL, _, _, _, _, henv, hsub, hkeys, _, _, _, hlen, _⟩ :=
    (C10_child_environment
      (exWorld exOriginOK exTokenT1 ["PATH=/usr/bin", "ARA_API_USERNAME=bob"] (.exited 0))
      "https://api.example.com" "" ["ansible-playbook", "site.yml"]).1 _ _ _ _ hmem
  ⟨hmem, addr, bytes, rest, hL, henv, hsub, hkeys, hlen⟩

end AraCloudRun
